import Mathlib

/-!
Shallow embedding of the climate-hub core (device coordinator, device manager,
control validation, protocol codec, reconnect policies) together with proofs
about its behaviour.  Python dictionaries are modelled as association lists in
insertion order, Python exceptions as explicit error sums, and network effects
as explicit parameters and outputs.
-/

namespace ClimateHub

/-! ### Data model (src/climate_hub/api/models.py) -/

/-- Mirror of the pydantic `Device` model.  Parameter values are
integer-dominant in the source; the params mapping is kept in insertion
order. -/
structure Device where
  endpoint_id : String
  product_id : String
  friendly_name : String
  mac : String
  dev_session : String
  device_type_flag : Int
  cookie : String
  state : Int
  params : List (String × Int)
  last_updated : Option String
deriving DecidableEq

/-- Mirror of `DeviceState.ONLINE`. -/
def DeviceState.ONLINE : Int := 1

/-- Mirror of `DeviceState.OFFLINE`. -/
def DeviceState.OFFLINE : Int := 0

/-- Mirror of the `Device.is_online` property: `self.state == DeviceState.ONLINE`. -/
def Device.is_online (d : Device) : Bool := d.state == DeviceState.ONLINE

/-! ### Exceptions -/

/-- Domain exceptions of src/climate_hub/acfreedom/exceptions.py.  Each
constructor carries the data the corresponding class stores. -/
inductive HubError where
  | deviceNotFound (device_id : String)
  | deviceOffline (device_id : String) (device_name : String)
  | invalidParameter (param_name : String) (value : String) (valid_values : List String)
  | serverBusy
  | climateHub (message : String)
  | authentication (reason : String)
deriving DecidableEq

/-- API-layer exceptions of src/climate_hub/api/exceptions.py together with the
Python builtin exceptions the protocol code can raise.  The constructors
`serverBusy`, `dataError`, `deviceOffline`, `auxApi` and `protocolError`
correspond to `AuxAPIError` subclasses (`details` is carried as the original
type and status); `valueError` and `indexError` are Python builtins and are
not `AuxAPIError` instances. -/
inductive ApiExc where
  | serverBusy (message : String) (etype : String) (status : Int)
  | dataError (message : String) (etype : String) (status : Int)
  | deviceOffline (message : String) (etype : String) (status : Int)
  | auxApi (message : String) (etype : String) (status : Int)
  | protocolError (message : String)
  | valueError (message : String)
  | indexError
deriving DecidableEq

/-- Which `ApiExc` constructors model subclasses of `AuxAPIError`. -/
def ApiExc.isAuxApiError : ApiExc → Bool
  | .serverBusy _ _ _ => true
  | .dataError _ _ _ => true
  | .deviceOffline _ _ _ => true
  | .auxApi _ _ _ => true
  | .protocolError _ => true
  | .valueError _ => false
  | .indexError => false

/-- Mirror of Python `str(e)` on an API exception: the stored message. -/
def ApiExc.str : ApiExc → String
  | .serverBusy m _ _ => m
  | .dataError m _ _ => m
  | .deviceOffline m _ _ => m
  | .auxApi m _ _ => m
  | .protocolError m => m
  | .valueError m => m
  | .indexError => "index out of range"

/-- Outcome of a control call: either a domain error is raised, or a Python
exception that no `except` clause of the control path catches propagates
unchanged. -/
inductive CtrlErr where
  | hub (e : HubError)
  | uncaught (e : ApiExc)
deriving DecidableEq

/-- Python `str.lower()`: character-wise ASCII lowercasing.  (Lean's
`String.toLower` is defined through a position-based auxiliary that the
kernel cannot reduce, so the character-list map is used instead.) -/
def pyLower (s : String) : String := ⟨s.data.map Char.toLower⟩

/-- Python `str.upper()`: character-wise ASCII uppercasing. -/
def pyUpper (s : String) : String := ⟨s.data.map Char.toUpper⟩

/-! ### Control validation (src/climate_hub/acfreedom/control.py) -/

/-- Mirror of `DeviceControl.MIN_TEMPERATURE`. -/
def MIN_TEMPERATURE : ℚ := 16

/-- Mirror of `DeviceControl.MAX_TEMPERATURE`. -/
def MAX_TEMPERATURE : ℚ := 30

/-- Mirror of `DeviceControl.validate_temperature`: raises InvalidParameter
unless `MIN_TEMPERATURE <= t <= MAX_TEMPERATURE`. -/
def validate_temperature (t : ℚ) : Except HubError Unit :=
  if MIN_TEMPERATURE ≤ t ∧ t ≤ MAX_TEMPERATURE then .ok ()
  else .error (.invalidParameter "temperature" (toString t) ["16-30°C"])

/-- Mirror of `DeviceControl.MODE_MAP` (string to params dict). -/
def MODE_MAP : List (String × List (String × Int)) :=
  [("cool", [("ac_mode", 0)]), ("heat", [("ac_mode", 1)]), ("dry", [("ac_mode", 2)]),
   ("fan", [("ac_mode", 3)]), ("auto", [("ac_mode", 4)])]

/-- Mirror of `DeviceControl.validate_mode`: lowercase the mode, look it up in
`MODE_MAP`, otherwise raise InvalidParameter listing the map keys. -/
def validate_mode (mode : String) : Except HubError (List (String × Int)) :=
  match MODE_MAP.find? (fun p => p.1 == pyLower mode) with
  | some p => .ok p.2
  | none => .error (.invalidParameter "mode" mode (MODE_MAP.map (·.1)))

/-- Mirror of `DeviceControl.FAN_SPEED_MAP`. -/
def FAN_SPEED_MAP : List (String × Int) :=
  [("auto", 0), ("low", 1), ("medium", 2), ("high", 3), ("turbo", 4), ("mute", 5)]

/-- Mirror of `DeviceControl.validate_fan_speed`: lowercase, look up in
`FAN_SPEED_MAP` and wrap under the `ac_mark` key, else InvalidParameter. -/
def validate_fan_speed (speed : String) : Except HubError (List (String × Int)) :=
  match FAN_SPEED_MAP.find? (fun p => p.1 == pyLower speed) with
  | some p => .ok [("ac_mark", p.2)]
  | none => .error (.invalidParameter "fan_speed" speed (FAN_SPEED_MAP.map (·.1)))

/-- Mirror of `DeviceControl.validate_swing_direction`. -/
def validate_swing_direction (direction : String) : Except HubError Unit :=
  if pyLower direction == "vertical" || pyLower direction == "horizontal" then .ok ()
  else .error (.invalidParameter "swing_direction" direction ["vertical", "horizontal"])

/-- Mirror of `DeviceControl.get_swing_params`. -/
def get_swing_params (direction : String) (state : Bool) : List (String × Int) :=
  if pyLower direction == "vertical" then
    if state then [("ac_vdir", 1)] else [("ac_vdir", 0)]
  else
    if state then [("ac_hdir", 1)] else [("ac_hdir", 0)]

/-- Python `int()` applied to a rational value: truncation toward zero. -/
def pyInt (q : ℚ) : Int := if 0 ≤ q then ⌊q⌋ else ⌈q⌉

/-! ### Device lookup (src/climate_hub/acfreedom/device.py) -/

/-- Whether the character list `needle` occurs at the start of `hay`. -/
def startsWithChars : List Char → List Char → Bool
  | _, [] => true
  | [], _ :: _ => false
  | h :: ht, n :: nt => h == n && startsWithChars ht nt

/-- Python substring containment `needle in hay` on character lists. -/
def hasSubstrChars : List Char → List Char → Bool
  | hay, needle =>
    startsWithChars hay needle ||
      match hay with
      | [] => false
      | _ :: t => hasSubstrChars t needle

/-- Python `needle in hay` on strings. -/
def strContains (hay needle : String) : Bool := hasSubstrChars hay.data needle.data

/-- Loop 1 of `DeviceFinder.find_device`: first exact endpoint-id match. -/
def findByIdLoop : List Device → String → Option Device
  | [], _ => none
  | d :: rest, s => if d.endpoint_id == s then some d else findByIdLoop rest s

/-- Loop 2 of `DeviceFinder.find_device`: first exact case-insensitive
friendly-name match. -/
def findByNameLoop : List Device → String → Option Device
  | [], _ => none
  | d :: rest, sLower =>
    if pyLower d.friendly_name == sLower then some d else findByNameLoop rest sLower

/-- Loop 3 of `DeviceFinder.find_device`: first case-insensitive substring
match against friendly names. -/
def findBySubstrLoop : List Device → String → Option Device
  | [], _ => none
  | d :: rest, sLower =>
    if strContains (pyLower d.friendly_name) sLower then some d else findBySubstrLoop rest sLower

/-- Mirror of `DeviceFinder.find_device`: empty list raises DeviceNotFound,
then the three loops in order, then DeviceNotFound. -/
def find_device (devices : List Device) (device_id : String) : Except HubError Device :=
  if devices.isEmpty then .error (.deviceNotFound device_id)
  else
    match findByIdLoop devices device_id with
    | some d => .ok d
    | none =>
      match findByNameLoop devices (pyLower device_id) with
      | some d => .ok d
      | none =>
        match findBySubstrLoop devices (pyLower device_id) with
        | some d => .ok d
        | none => .error (.deviceNotFound device_id)

/-- The lookup rule as the spec words it: three staged searches, each taking
the first hit in list order, no hit raising DeviceNotFound. -/
def find_device_spec (devices : List Device) (device_id : String) : Except HubError Device :=
  match devices.find? (fun d => d.endpoint_id == device_id) with
  | some d => .ok d
  | none =>
    match devices.find? (fun d => (pyLower d.friendly_name) == (pyLower device_id)) with
    | some d => .ok d
    | none =>
      match devices.find? (fun d => strContains (pyLower d.friendly_name) (pyLower device_id)) with
      | some d => .ok d
      | none => .error (.deviceNotFound device_id)

/-! ### Protocol codec (src/climate_hub/api/protocol.py) -/

/-- One inner value cell `{idx, val}` of a decoded control payload. -/
structure ValCell where
  val : Int
deriving DecidableEq

/-- The decoded inner JSON string of a successful control response:
`{params: [name...], vals: [[{val}]...]}`. -/
structure ControlData where
  params : List String
  vals : List (List ValCell)
deriving DecidableEq

/-- The `payload` object of a control response.  `type`, `message` and
`status` are read with `.get` and defaults, so they are optional; `data`
holds the decoded inner JSON of a success payload when present. -/
structure RespPayload where
  ptype : Option String
  message : Option String
  status : Option Int
  data : Option ControlData
deriving DecidableEq

/-- The `event` object of a control response.  `headerName` models
`event.get("header", {}).get("name")`, which never fails and yields `none`
when either key is missing. -/
structure RespEvent where
  headerName : Option String
  payload : Option RespPayload
deriving DecidableEq

/-- A control response envelope: the optional `event` member. -/
structure ControlResp where
  event : Option RespEvent
deriving DecidableEq

/-- Zipping loop of `parse_control_response`:
`for i in range(len(params)): result[params[i]] = vals[i][0]["val"]`, raising
IndexError when `vals` is too short or an inner list is empty. -/
def zipControlData : List String → List (List ValCell) → Except ApiExc (List (String × Int))
  | [], _ => .ok []
  | _ :: _, [] => .error .indexError
  | _ :: _, [] :: _ => .error .indexError
  | p :: ps, (c :: _) :: vs =>
    match zipControlData ps vs with
    | .ok rest => .ok ((p, c.val) :: rest)
    | .error e => .error e

/-- Mirror of `parse_control_response`: reject envelopes without
`event`/`payload` with ValueError, dispatch `ErrorResponse` payloads on
status `-49002`, status `-1005`, type `ENDPOINT_UNREACHABLE` and a generic
`AuxAPIError` fallback (each keeping the original type and status in its
details), and zip success payloads positionally. -/
def parse_control_response (resp : ControlResp) : Except ApiExc (List (String × Int)) :=
  match resp.event with
  | none => .error (.valueError "Invalid control response")
  | some event =>
    match event.payload with
    | none => .error (.valueError "Invalid control response")
    | some payload =>
      if event.headerName == some "ErrorResponse" then
        let etype := payload.ptype.getD "UNKNOWN"
        let emsg := payload.message.getD "Unknown error"
        let estatus := payload.status.getD 0
        if estatus == -49002 then
          .error (.serverBusy ("Server is busy: " ++ emsg) etype estatus)
        else if estatus == -1005 then
          .error (.dataError ("Data error: " ++ emsg) etype estatus)
        else if etype == "ENDPOINT_UNREACHABLE" then
          .error (.deviceOffline ("Device is offline: " ++ emsg) etype estatus)
        else
          .error (.auxApi ("API error: " ++ emsg) etype estatus)
      else
        match payload.data with
        | none => .error (.valueError "Invalid control response")
        | some data => zipControlData data.params data.vals

/-- One entry of a bulk state query payload `data` list: `{did, state}`. -/
structure StateEntry where
  did : String
  state : Int
deriving DecidableEq

/-- The `payload` of a state query response. -/
structure StatePayload where
  status : Option Int
  data : List StateEntry
deriving DecidableEq

/-- The `event` object of a state query response. -/
structure StateEvent where
  payload : Option StatePayload
deriving DecidableEq

/-- A state query response envelope. -/
structure StateResp where
  event : Option StateEvent
deriving DecidableEq

/-- Mirror of `parse_state_response`: return the payload when `event` and
`payload` are present and `payload.get("status") == 0`, otherwise raise
ValueError. -/
def parse_state_response (resp : StateResp) : Except ApiExc StatePayload :=
  match resp.event with
  | none => .error (.valueError "Invalid state response")
  | some event =>
    match event.payload with
    | none => .error (.valueError "Invalid state response")
    | some payload =>
      if payload.status == some 0 then .ok payload
      else .error (.valueError "Invalid state response")

/-- Whether a parsing outcome is a raised `ProtocolError`. -/
def raisedProtocolError {α : Type} : Except ApiExc α → Bool
  | .error (.protocolError _) => true
  | _ => false

/-- Whether a parsing outcome is a raised `ValueError`. -/
def raisedValueError {α : Type} : Except ApiExc α → Bool
  | .error (.valueError _) => true
  | _ => false

/-! ### Reconnect policies (src/climate_hub/api/websocket.py and
src/climate_hub/webapp/background.py) -/

/-- Outcome of one pass of a reconnect loop: the connection attempt either
succeeds or raises. -/
inductive ConnOutcome where
  | success
  | failure
deriving DecidableEq

/-- Mirror of `AuxCloudWebSocket._reconnect`: `retry_delay = 10` and the
doubling line is commented out, so every failed attempt sleeps the unchanged
delay.  State is `(retry_delay, slept delays so far)`. -/
def wsReconnectStep : Nat × List Nat → ConnOutcome → Nat × List Nat
  | (d, log), .success => (d, log)
  | (d, log), .failure => (d, log ++ [d])

/-- Initial `retry_delay` of `AuxCloudWebSocket._reconnect`. -/
def wsInitialRetryDelay : Nat := 10

/-- Run the websocket reconnect loop over a trace of attempt outcomes,
collecting the delays slept before successive attempts. -/
def wsReconnectRun (trace : List ConnOutcome) : Nat × List Nat :=
  trace.foldl wsReconnectStep (wsInitialRetryDelay, [])

/-- Maximum delay of `run_cloud_listener`. -/
def listenerMaxDelay : Nat := 300

/-- Doubling step of `run_cloud_listener`: `retry_delay = min(retry_delay * 2, max_delay)`. -/
def listenerNextDelay (d : Nat) : Nat := min (d * 2) listenerMaxDelay

/-- Mirror of the `run_cloud_listener` loop body: a successful connection
resets `retry_delay` to 5; an exception sleeps `retry_delay` and then
doubles it up to the cap. -/
def listenerStep : Nat × List Nat → ConnOutcome → Nat × List Nat
  | (_, log), .success => (5, log)
  | (d, log), .failure => (listenerNextDelay d, log ++ [d])

/-- Run the cloud listener loop over a trace of connection outcomes, starting
from the initial `retry_delay = 5`, collecting the slept delays. -/
def listenerRun (trace : List ConnOutcome) : Nat × List Nat :=
  trace.foldl listenerStep (5, [])

/-! ### Association-list helpers for the coordinator's dictionaries -/

/-- First-match lookup in an insertion-ordered association list, the shallow
model of Python `dict[k]` access. -/
def alookup {α : Type} (l : List (String × α)) (k : String) : Option α :=
  (l.find? (fun p => p.1 = k)).map (·.2)

/-- In-place value replacement, the model of assigning through a dict slot. -/
def aupdate {α : Type} (l : List (String × α)) (k : String) (v : α) : List (String × α) :=
  l.map (fun p => if p.1 = k then (k, v) else p)

/-- Keys of an association list in insertion order. -/
def akeys {α : Type} (l : List (String × α)) : List String := l.map (·.1)

/-! ### Device coordinator (src/climate_hub/acfreedom/coordinator.py) -/

/-- The coordinator's mutable dictionaries.  Monitor task handles are
modelled by key presence, `asyncio.Event` slots by a set flag. -/
structure CoordState where
  devices : List (String × Device)
  monitors : List String
  triggers : List (String × Bool)
  ready : List (String × Bool)
  discoveryRunning : Bool
deriving DecidableEq

/-- Mirror of `DeviceCoordinator.trigger_update`: set the trigger event when
one exists for the id, otherwise do nothing. -/
def trigger_update (st : CoordState) (device_id : String) : CoordState :=
  match alookup st.triggers device_id with
  | some _ => { st with triggers := aupdate st.triggers device_id true }
  | none => st

/-- Mirror of `DeviceCoordinator._start_monitor`: no-op when the id already
has a monitor, otherwise create an unset trigger event, an unset ready event
and the monitor task. -/
def start_monitor (st : CoordState) (device_id : String) : CoordState :=
  if device_id ∈ st.monitors then st
  else
    { st with
      triggers := st.triggers ++ [(device_id, false)]
      ready := st.ready ++ [(device_id, false)]
      monitors := st.monitors ++ [device_id] }

/-- One entry of the device list the vendor returns for a family.
`AuxCloudAPI.get_devices` is not part of src/; modelled from the spec: a
raw device dictionary carries the stable endpoint identifier (read as
`dev_raw["did"]` by discovery and echoed as `endpointId` into the bulk state
query) together with the identity fields the `Device` model is constructed
from. -/
structure RawDevice where
  did : String
  productId : String
  friendlyName : String
  mac : String
  devSession : String
  devicetypeFlag : Int
  cookie : String
deriving DecidableEq

/-- Construction `Device(**dev_raw)`: identity fields from the raw entry and
the pydantic defaults `state = OFFLINE`, empty params, no timestamp. -/
def deviceFromRaw (r : RawDevice) : Device :=
  { endpoint_id := r.did
    product_id := r.productId
    friendly_name := r.friendlyName
    mac := r.mac
    dev_session := r.devSession
    device_type_flag := r.devicetypeFlag
    cookie := r.cookie
    state := DeviceState.OFFLINE
    params := []
    last_updated := none }

/-- Mirror of `next((s["state"] for s in state_data["data"] if s["did"] == did), 0)`. -/
def bulkState (stateData : List StateEntry) (did : String) : Int :=
  ((stateData.find? (fun s => s.did = did)).map (·.state)).getD 0

/-- One family of the vendor response used by a discovery step: its device
list and the payload of the bulk state query performed for it. -/
structure FamilyResp where
  familyid : String
  devicesRaw : List RawDevice
  stateData : List StateEntry
deriving DecidableEq

/-- A full vendor response for one discovery step. -/
structure VendorResp where
  families : List FamilyResp
deriving DecidableEq

/-- Body of the inner discovery loop for one raw device entry: read the bulk
state, then either construct and insert a new `Device` (starting its monitor
when the discovery loop is already running) or update only the `state` field
of the known device. -/
def discoverDevice (st : CoordState) (stateData : List StateEntry) (r : RawDevice) : CoordState :=
  let state := bulkState stateData r.did
  match alookup st.devices r.did with
  | none =>
    let device := { deviceFromRaw r with state := state }
    let st1 := { st with devices := st.devices ++ [(r.did, device)] }
    if st.discoveryRunning then start_monitor st1 r.did else st1
  | some d =>
    { st with devices := aupdate st.devices r.did { d with state := state } }

/-- The discovery pass over all families of the response (the nested loops of
`_discovery_step` before the cleanup phase).  Families with an empty device
list perform no bulk query and contribute nothing. -/
def discoverAll (st : CoordState) (resp : VendorResp) : CoordState :=
  resp.families.foldl
    (fun s f => f.devicesRaw.foldl (fun s2 r => discoverDevice s2 f.stateData r) s) st

/-- All ids listed by the response, `all_discovered_ids` in insertion order. -/
def respIds (resp : VendorResp) : List String :=
  resp.families.flatMap (fun f => f.devicesRaw.map (·.did))

/-- The ids `_discovery_step` removes: `removed_ids = set(self._devices.keys())
- all_discovered_ids`. -/
def removedOf (st : CoordState) (discovered : List String) : List String :=
  (akeys st.devices).filter (fun id => decide (id ∉ discovered))

/-- Cleanup phase of `_discovery_step`: every known id the response no longer
lists has its monitor cancelled and its monitor, trigger, ready and device
entries deleted. -/
def discoveryCleanup (st : CoordState) (discovered : List String) : CoordState :=
  { devices := st.devices.filter (fun p => decide (p.1 ∉ removedOf st discovered))
    monitors := st.monitors.filter (fun id => decide (id ∉ removedOf st discovered))
    triggers := st.triggers.filter (fun p => decide (p.1 ∉ removedOf st discovered))
    ready := st.ready.filter (fun p => decide (p.1 ∉ removedOf st discovered))
    discoveryRunning := st.discoveryRunning }

/-- Mirror of `DeviceCoordinator._discovery_step` on a well-formed vendor
response: the discovery pass followed by the cleanup phase. -/
def discovery_step (st : CoordState) (resp : VendorResp) : CoordState :=
  discoveryCleanup (discoverAll st resp) (respIds resp)

/-! ### Coordinator control path -/

instance {α β : Type} [DecidableEq α] [DecidableEq β] : DecidableEq (Except α β) := fun x y =>
  match x, y with
  | .ok a, .ok b =>
    if h : a = b then .isTrue (by rw [h]) else .isFalse (by intro hc; cases hc; exact h rfl)
  | .error a, .error b =>
    if h : a = b then .isTrue (by rw [h]) else .isFalse (by intro hc; cases hc; exact h rfl)
  | .ok _, .error _ => .isFalse (by intro hc; cases hc)
  | .error _, .ok _ => .isFalse (by intro hc; cases hc)

/-- Result of one coordinator control call: the raised error or success, the
`set_device_params` network calls issued (endpoint id and params sent), and
the coordinator state afterwards. -/
structure ExecOut where
  result : Except CtrlErr Unit
  calls : List (String × List (String × Int))
  state : CoordState
deriving DecidableEq

/-- Mirror of `DeviceCoordinator._execute_control`.  The vendor reply to the
(single possible) `set_device_params` call is passed in as `net`: `.ok` on
success, `.error` carrying the exception `set_device_params` raised. -/
def execute_control (st : CoordState) (device_id : String) (params : List (String × Int))
    (net : Except ApiExc (List (String × Int))) : ExecOut :=
  match find_device (st.devices.map (·.2)) device_id with
  | .error e => ⟨.error (.hub e), [], st⟩
  | .ok device =>
    if !device.is_online then
      ⟨.error (.hub (.deviceOffline device.endpoint_id device.friendly_name)), [], st⟩
    else
      let call := [(device.endpoint_id, params)]
      match net with
      | .ok _ => ⟨.ok (), call, trigger_update st device.endpoint_id⟩
      | .error (.serverBusy _ _ _) => ⟨.error (.hub .serverBusy), call, st⟩
      | .error (.deviceOffline _ _ _) =>
        ⟨.error (.hub (.deviceOffline device.endpoint_id device.friendly_name)), call, st⟩
      | .error e =>
        if e.isAuxApiError then ⟨.error (.hub (.climateHub e.str)), call, st⟩
        else ⟨.error (.uncaught e), call, st⟩

/-- Mirror of `DeviceCoordinator.set_power`. -/
def coord_set_power (st : CoordState) (device_id : String) (turnOn : Bool)
    (net : Except ApiExc (List (String × Int))) : ExecOut :=
  execute_control st device_id (if turnOn then [("pwr", 1)] else [("pwr", 0)]) net

/-- Mirror of `DeviceCoordinator.set_temperature`: validate first, then build
`{temp: int(temperature * 10)}`, then `_execute_control`. -/
def coord_set_temperature (st : CoordState) (device_id : String) (temperature : ℚ)
    (net : Except ApiExc (List (String × Int))) : ExecOut :=
  match validate_temperature temperature with
  | .error e => ⟨.error (.hub e), [], st⟩
  | .ok () => execute_control st device_id [("temp", pyInt (temperature * 10))] net

/-- Mirror of `DeviceCoordinator.set_mode`: validate first. -/
def coord_set_mode (st : CoordState) (device_id : String) (mode : String)
    (net : Except ApiExc (List (String × Int))) : ExecOut :=
  match validate_mode mode with
  | .error e => ⟨.error (.hub e), [], st⟩
  | .ok params => execute_control st device_id params net

/-- Mirror of `DeviceCoordinator.set_fan_speed`: validate first. -/
def coord_set_fan_speed (st : CoordState) (device_id : String) (speed : String)
    (net : Except ApiExc (List (String × Int))) : ExecOut :=
  match validate_fan_speed speed with
  | .error e => ⟨.error (.hub e), [], st⟩
  | .ok params => execute_control st device_id params net

/-- Mirror of `DeviceCoordinator.set_swing`: validate the direction first. -/
def coord_set_swing (st : CoordState) (device_id : String) (direction : String) (turnOn : Bool)
    (net : Except ApiExc (List (String × Int))) : ExecOut :=
  match validate_swing_direction direction with
  | .error e => ⟨.error (.hub e), [], st⟩
  | .ok () => execute_control st device_id (get_swing_params direction turnOn) net

/-! ### Device manager control path (src/climate_hub/acfreedom/manager.py) -/

/-- Result of one manager control call: raised error or success, the network
calls issued, and the manager's device list afterwards (the manager's
control methods never write it). -/
structure MgrOut where
  result : Except CtrlErr Unit
  calls : List (String × List (String × Int))
  devices : List Device
deriving DecidableEq

/-- Mirror of `DeviceManager._wrap_api_call` exception mapping, applied to the
outcome of a `set_device_params` call. -/
def wrap_api_call (call : String × List (String × Int)) (devices : List Device)
    (net : Except ApiExc (List (String × Int))) : MgrOut :=
  match net with
  | .ok _ => ⟨.ok (), [call], devices⟩
  | .error (.serverBusy _ _ _) => ⟨.error (.hub .serverBusy), [call], devices⟩
  | .error (.deviceOffline m t s) =>
    ⟨.error (.hub (.climateHub (ApiExc.deviceOffline m t s).str)), [call], devices⟩
  | .error (.dataError m t s) =>
    ⟨.error (.hub (.climateHub (ApiExc.dataError m t s).str)), [call], devices⟩
  | .error e =>
    if e.isAuxApiError then ⟨.error (.hub (.climateHub e.str)), [call], devices⟩
    else ⟨.error (.uncaught e), [call], devices⟩

/-- Mirror of `DeviceManager.set_power`: find, check online, send. -/
def mgr_set_power (devices : List Device) (device_id : String) (turnOn : Bool)
    (net : Except ApiExc (List (String × Int))) : MgrOut :=
  match find_device devices device_id with
  | .error e => ⟨.error (.hub e), [], devices⟩
  | .ok device =>
    if !device.is_online then
      ⟨.error (.hub (.deviceOffline device.endpoint_id device.friendly_name)), [], devices⟩
    else
      wrap_api_call (device.endpoint_id, if turnOn then [("pwr", 1)] else [("pwr", 0)]) devices net

/-- Mirror of `DeviceManager.set_temperature`: find, check online, validate,
then send `{temp: temperature}` with the Celsius value unconverted. -/
def mgr_set_temperature (devices : List Device) (device_id : String) (temperature : Int)
    (net : Except ApiExc (List (String × Int))) : MgrOut :=
  match find_device devices device_id with
  | .error e => ⟨.error (.hub e), [], devices⟩
  | .ok device =>
    if !device.is_online then
      ⟨.error (.hub (.deviceOffline device.endpoint_id device.friendly_name)), [], devices⟩
    else
      match validate_temperature (temperature : ℚ) with
      | .error e => ⟨.error (.hub e), [], devices⟩
      | .ok () => wrap_api_call (device.endpoint_id, [("temp", temperature)]) devices net

/-- Mirror of `DeviceManager.set_mode`: find, check online, validate. -/
def mgr_set_mode (devices : List Device) (device_id : String) (mode : String)
    (net : Except ApiExc (List (String × Int))) : MgrOut :=
  match find_device devices device_id with
  | .error e => ⟨.error (.hub e), [], devices⟩
  | .ok device =>
    if !device.is_online then
      ⟨.error (.hub (.deviceOffline device.endpoint_id device.friendly_name)), [], devices⟩
    else
      match validate_mode mode with
      | .error e => ⟨.error (.hub e), [], devices⟩
      | .ok params => wrap_api_call (device.endpoint_id, params) devices net

/-- Mirror of `DeviceManager.set_fan_speed`: find, check online, validate. -/
def mgr_set_fan_speed (devices : List Device) (device_id : String) (speed : String)
    (net : Except ApiExc (List (String × Int))) : MgrOut :=
  match find_device devices device_id with
  | .error e => ⟨.error (.hub e), [], devices⟩
  | .ok device =>
    if !device.is_online then
      ⟨.error (.hub (.deviceOffline device.endpoint_id device.friendly_name)), [], devices⟩
    else
      match validate_fan_speed speed with
      | .error e => ⟨.error (.hub e), [], devices⟩
      | .ok params => wrap_api_call (device.endpoint_id, params) devices net

/-- Mirror of `DeviceManager.set_swing`: find, check online, validate the
direction, then send the swing params. -/
def mgr_set_swing (devices : List Device) (device_id : String) (direction : String) (turnOn : Bool)
    (net : Except ApiExc (List (String × Int))) : MgrOut :=
  match find_device devices device_id with
  | .error e => ⟨.error (.hub e), [], devices⟩
  | .ok device =>
    if !device.is_online then
      ⟨.error (.hub (.deviceOffline device.endpoint_id device.friendly_name)), [], devices⟩
    else
      match validate_swing_direction direction with
      | .error e => ⟨.error (.hub e), [], devices⟩
      | .ok () => wrap_api_call (device.endpoint_id, get_swing_params direction turnOn) devices net

/-- State update of `DeviceManager._get_devices_for_family`: the state of
each freshly constructed device is the first matching entry of the bulk state
payload, defaulting to 0 when none matches. -/
def mgrUpdateState (stateData : List StateEntry) (d : Device) : Device :=
  { d with state := bulkState stateData d.endpoint_id }

/-! ### Helper lemmas: association lists -/

theorem alookup_nil {α : Type} (k : String) : alookup ([] : List (String × α)) k = none := rfl

theorem alookup_cons {α : Type} (p : String × α) (l : List (String × α)) (k : String) :
    alookup (p :: l) k = if p.1 = k then some p.2 else alookup l k := by
  by_cases h : p.1 = k
  · simp [alookup, List.find?_cons_of_pos, h]
  · simp [alookup, List.find?_cons_of_neg, h]

theorem alookup_append {α : Type} (l1 l2 : List (String × α)) (k : String) :
    alookup (l1 ++ l2) k = (alookup l1 k).or (alookup l2 k) := by
  simp only [alookup, List.find?_append]
  cases l1.find? (fun p => p.1 = k) <;> simp

theorem alookup_mem_keys {α : Type} {l : List (String × α)} {k : String} {v : α}
    (h : alookup l k = some v) : k ∈ akeys l := by
  induction l with
  | nil => simp [alookup] at h
  | cons p t ih =>
    rw [alookup_cons] at h
    by_cases hp : p.1 = k
    · simp [akeys, hp.symm]
    · simp [hp] at h
      simp [akeys] at ih ⊢
      exact .inr (by simpa [akeys] using ih h)

theorem alookup_eq_none_of_not_mem {α : Type} {l : List (String × α)} {k : String}
    (h : k ∉ akeys l) : alookup l k = none := by
  cases hl : alookup l k with
  | none => rfl
  | some v => exact absurd (alookup_mem_keys hl) h

theorem akeys_aupdate {α : Type} (l : List (String × α)) (k : String) (v : α) :
    akeys (aupdate l k v) = akeys l := by
  simp only [akeys, aupdate, List.map_map]
  apply List.map_congr_left
  intro p _
  by_cases h : p.1 = k <;> simp [h]

theorem alookup_aupdate_self {α : Type} {l : List (String × α)} {k : String} {d : α} (v : α)
    (h : alookup l k = some d) : alookup (aupdate l k v) k = some v := by
  induction l with
  | nil => simp [alookup] at h
  | cons p t ih =>
    rw [alookup_cons] at h
    by_cases hp : p.1 = k
    · simp [aupdate, alookup_cons, hp]
    · simp [hp] at h
      simpa [aupdate, alookup_cons, hp] using ih h

theorem alookup_aupdate_ne {α : Type} (l : List (String × α)) {k k' : String} (v : α)
    (h : k' ≠ k) : alookup (aupdate l k v) k' = alookup l k' := by
  induction l with
  | nil => rfl
  | cons p t ih =>
    simp only [aupdate, List.map_cons]
    by_cases hp : p.1 = k
    · rw [if_pos hp, alookup_cons, alookup_cons, hp]
      simp only [if_neg (Ne.symm h)]
      simpa only [aupdate] using ih
    · rw [if_neg hp, alookup_cons, alookup_cons]
      by_cases hk : p.1 = k'
      · simp [hk]
      · simp only [if_neg hk]
        simpa only [aupdate] using ih

theorem alookup_filter_of_keep {α : Type} (l : List (String × α)) (pred : String × α → Bool)
    (k : String) (h : ∀ p : String × α, p.1 = k → pred p = true) :
    alookup (l.filter pred) k = alookup l k := by
  induction l with
  | nil => rfl
  | cons p t ih =>
    by_cases hp : p.1 = k
    · simp [List.filter_cons, h p hp, alookup_cons, hp, ih]
    · by_cases hk : pred p <;> simp [List.filter_cons, hk, alookup_cons, hp, ih]

theorem alookup_filter_of_drop {α : Type} (l : List (String × α)) (pred : String × α → Bool)
    (k : String) (h : ∀ p : String × α, p.1 = k → pred p = false) :
    alookup (l.filter pred) k = none := by
  induction l with
  | nil => rfl
  | cons p t ih =>
    by_cases hp : p.1 = k
    · simp [List.filter_cons, h p hp, ih]
    · by_cases hk : pred p <;> simp [List.filter_cons, hk, alookup_cons, hp, ih]

theorem mem_akeys_filter {α : Type} (l : List (String × α)) (pred : String × α → Bool)
    (k : String) (c : Bool) (h : ∀ p : String × α, p.1 = k → pred p = c) :
    k ∈ akeys (l.filter pred) ↔ k ∈ akeys l ∧ c = true := by
  simp only [akeys, List.mem_map, List.mem_filter]
  constructor
  · rintro ⟨p, ⟨hmem, hkeep⟩, rfl⟩
    exact ⟨⟨p, hmem, rfl⟩, (h p rfl) ▸ hkeep⟩
  · rintro ⟨⟨p, hmem, rfl⟩, hc⟩
    exact ⟨p, ⟨hmem, (h p rfl).trans hc⟩, rfl⟩

theorem mem_akeys_lookup {α : Type} {l : List (String × α)} {k : String}
    (h : k ∈ akeys l) : ∃ v, alookup l k = some v := by
  induction l with
  | nil => simp [akeys] at h
  | cons p t ih =>
    rw [alookup_cons]
    by_cases hp : p.1 = k
    · exact ⟨p.2, if_pos hp⟩
    · rw [if_neg hp]
      apply ih
      rcases (by simpa [akeys] using h : k = p.1 ∨ ∃ x, (k, x) ∈ t) with h1 | ⟨x, h2⟩
      · exact absurd h1.symm hp
      · simpa [akeys] using List.mem_map_of_mem Prod.fst h2

/-! ### Helper lemmas: device lookup loops -/

theorem findByIdLoop_eq_find? (devices : List Device) (s : String) :
    findByIdLoop devices s = devices.find? (fun d => d.endpoint_id == s) := by
  induction devices with
  | nil => rfl
  | cons d t ih =>
    rw [show findByIdLoop (d :: t) s
        = if d.endpoint_id == s then some d else findByIdLoop t s from rfl]
    by_cases h : (d.endpoint_id == s) = true
    · rw [if_pos h]
      exact (List.find?_cons_of_pos (p := fun d => d.endpoint_id == s) t h).symm
    · rw [if_neg h, ih]
      exact (List.find?_cons_of_neg (p := fun d => d.endpoint_id == s) t h).symm

theorem findByNameLoop_eq_find? (devices : List Device) (s : String) :
    findByNameLoop devices s = devices.find? (fun d => pyLower d.friendly_name == s) := by
  induction devices with
  | nil => rfl
  | cons d t ih =>
    rw [show findByNameLoop (d :: t) s
        = if pyLower d.friendly_name == s then some d else findByNameLoop t s from rfl]
    by_cases h : (pyLower d.friendly_name == s) = true
    · rw [if_pos h]
      exact (List.find?_cons_of_pos (p := fun d => pyLower d.friendly_name == s) t h).symm
    · rw [if_neg h, ih]
      exact (List.find?_cons_of_neg (p := fun d => pyLower d.friendly_name == s) t h).symm

theorem findBySubstrLoop_eq_find? (devices : List Device) (s : String) :
    findBySubstrLoop devices s
      = devices.find? (fun d => strContains (pyLower d.friendly_name) s) := by
  induction devices with
  | nil => rfl
  | cons d t ih =>
    rw [show findBySubstrLoop (d :: t) s
        = if strContains (pyLower d.friendly_name) s then some d
          else findBySubstrLoop t s from rfl]
    by_cases h : strContains (pyLower d.friendly_name) s = true
    · rw [if_pos h]
      exact (List.find?_cons_of_pos (p := fun d => strContains (pyLower d.friendly_name) s) t h).symm
    · rw [if_neg h, ih]
      exact (List.find?_cons_of_neg (p := fun d => strContains (pyLower d.friendly_name) s) t h).symm

theorem findByIdLoop_self {devices : List Device} {d : Device}
    (hnd : (devices.map (·.endpoint_id)).Nodup) (hmem : d ∈ devices) :
    findByIdLoop devices d.endpoint_id = some d := by
  induction devices with
  | nil => cases hmem
  | cons h t ih =>
    have hnd2 : h.endpoint_id ∉ t.map (·.endpoint_id) ∧ (t.map (·.endpoint_id)).Nodup := by
      simpa [List.nodup_cons] using hnd
    rw [show findByIdLoop (h :: t) d.endpoint_id
        = if h.endpoint_id == d.endpoint_id then some h
          else findByIdLoop t d.endpoint_id from rfl]
    by_cases he : (h.endpoint_id == d.endpoint_id) = true
    · rw [if_pos he]
      have heq : h.endpoint_id = d.endpoint_id := by simpa using he
      rcases List.mem_cons.1 hmem with rfl | hmem2
      · rfl
      · exact absurd (heq ▸ List.mem_map_of_mem (·.endpoint_id) hmem2) hnd2.1
    · rw [if_neg he]
      rcases List.mem_cons.1 hmem with rfl | hmem2
      · exact absurd (by simp) he
      · exact ih hnd2.2 hmem2

/-- C6 counterexample: in a twin whose first device has endpoint id
`"KITCHEN"` and whose second device has friendly name `"kitchen"`, looking up
the second device by its uppercased friendly name hits the endpoint-id stage
first and returns the first device, whose friendly name does not match
`"KITCHEN"` case-insensitively. -/
theorem find_device_upper_name_id_collision :
    pyUpper "kitchen" = "KITCHEN" ∧
    find_device
      [⟨"KITCHEN", "p1", "Bedroom", "m1", "s1", 1, "c1", 1, [], none⟩,
       ⟨"x", "p2", "kitchen", "m2", "s2", 1, "c2", 1, [], none⟩] "KITCHEN"
      = .ok ⟨"KITCHEN", "p1", "Bedroom", "m1", "s1", 1, "c1", 1, [], none⟩ ∧
    pyLower "Bedroom" ≠ pyLower "KITCHEN" := by
  exact ⟨rfl, rfl, by decide⟩

/-- C6 (amended): `find_device` stages exact endpoint-id match, exact
case-insensitive friendly-name match and case-insensitive substring match in
that order, each taking the first device in list order, raising
DeviceNotFound when no stage matches.  When endpoint ids are unique, lookup
by a device's endpoint id returns that device; lookup by any case variant of
a device's friendly name returns a device whose friendly name matches it
case-insensitively, provided the searched string is not also some device's
endpoint id. -/
theorem find_device_staged_lookup :
    (∀ (devices : List Device) (s : String),
      find_device devices s = find_device_spec devices s) ∧
    (∀ (devices : List Device) (d : Device),
      (devices.map (·.endpoint_id)).Nodup → d ∈ devices →
      find_device devices d.endpoint_id = .ok d) ∧
    (∀ (devices : List Device) (d : Device) (u : String),
      d ∈ devices → pyLower u = pyLower d.friendly_name →
      (∀ e ∈ devices, e.endpoint_id ≠ u) →
      ∃ r, find_device devices u = .ok r ∧ pyLower r.friendly_name = pyLower u) := by
  refine ⟨?_, ?_, ?_⟩
  · intro devices s
    cases devices with
    | nil => rfl
    | cons h t =>
      simp only [find_device, find_device_spec, findByIdLoop_eq_find?, findByNameLoop_eq_find?,
        findBySubstrLoop_eq_find?, List.isEmpty_cons]
      rw [if_neg (by simp)]
  · intro devices d hnd hmem
    cases devices with
    | nil => cases hmem
    | cons h t =>
      simp only [find_device]
      rw [if_neg (by simp), findByIdLoop_self hnd hmem]
  · intro devices d u hmem hu hid
    have ha : findByIdLoop devices u = none := by
      rw [findByIdLoop_eq_find?, List.find?_eq_none]
      intro x hx
      simpa using hid x hx
    have hsome : (devices.find? (fun e => pyLower e.friendly_name == pyLower u)).isSome :=
      List.find?_isSome.2 ⟨d, hmem, by simp [hu]⟩
    obtain ⟨r, hr⟩ := Option.isSome_iff_exists.1 hsome
    have hprop : (pyLower r.friendly_name == pyLower u) = true :=
      List.find?_some (p := fun e : Device => pyLower e.friendly_name == pyLower u) hr
    have hb : findByNameLoop devices (pyLower u) = some r := by
      rw [findByNameLoop_eq_find?]; exact hr
    refine ⟨r, ?_, by simpa using hprop⟩
    cases devices with
    | nil => cases hmem
    | cons h t =>
      simp only [find_device]
      rw [if_neg (by simp), ha, hb]

/-- C6 witness: lookup of a concrete device by its endpoint id through the
amended theorem. -/
theorem find_device_staged_lookup_witness :
    find_device
      [⟨"d1", "p", "Living Room", "m", "s", 1, "c", 1, [], none⟩,
       ⟨"d2", "p", "Bedroom AC", "m", "s", 1, "c", 0, [], none⟩] "d2"
      = .ok ⟨"d2", "p", "Bedroom AC", "m", "s", 1, "c", 0, [], none⟩ :=
  find_device_staged_lookup.2.1
    [⟨"d1", "p", "Living Room", "m", "s", 1, "c", 1, [], none⟩,
     ⟨"d2", "p", "Bedroom AC", "m", "s", 1, "c", 0, [], none⟩]
    ⟨"d2", "p", "Bedroom AC", "m", "s", 1, "c", 0, [], none⟩ (by decide) (by decide)

/-! ### Claims about the protocol codec -/

/-- A well-formed vendor error response: `event.header.name == "ErrorResponse"`
with an inner payload carrying type, message and status. -/
def mkErrorResp (etype emsg : String) (estatus : Int) (d : Option ControlData) : ControlResp :=
  ⟨some ⟨some "ErrorResponse", some ⟨some etype, some emsg, some estatus, d⟩⟩⟩

/-- C4: on every well-formed error response, `parse_control_response` raises
exactly ServerBusy for status `-49002`, DataError for status `-1005`,
DeviceOffline for type `ENDPOINT_UNREACHABLE` when the status is neither of
those, and otherwise a generic AuxAPIError; every branch preserves the
original type and status as the details. -/
theorem parse_error_response_taxonomy (etype emsg : String) (estatus : Int)
    (d : Option ControlData) :
    (estatus = -49002 → parse_control_response (mkErrorResp etype emsg estatus d)
        = .error (.serverBusy ("Server is busy: " ++ emsg) etype estatus)) ∧
    (estatus ≠ -49002 → estatus = -1005 →
      parse_control_response (mkErrorResp etype emsg estatus d)
        = .error (.dataError ("Data error: " ++ emsg) etype estatus)) ∧
    (estatus ≠ -49002 → estatus ≠ -1005 → etype = "ENDPOINT_UNREACHABLE" →
      parse_control_response (mkErrorResp etype emsg estatus d)
        = .error (.deviceOffline ("Device is offline: " ++ emsg) etype estatus)) ∧
    (estatus ≠ -49002 → estatus ≠ -1005 → etype ≠ "ENDPOINT_UNREACHABLE" →
      parse_control_response (mkErrorResp etype emsg estatus d)
        = .error (.auxApi ("API error: " ++ emsg) etype estatus)) := by
  refine ⟨?_, ?_, ?_, ?_⟩
  · intro h1
    subst h1
    simp [parse_control_response, mkErrorResp]
  · intro h1 h2
    subst h2
    simp [parse_control_response, mkErrorResp]
  · intro h1 h2 h3
    subst h3
    simp [parse_control_response, mkErrorResp, h1, h2]
  · intro h1 h2 h3
    simp [parse_control_response, mkErrorResp, h1, h2, h3]

/-- C4 witness: the ServerBusy branch at status `-49002`. -/
theorem parse_error_response_taxonomy_witness :
    parse_control_response (mkErrorResp "T" "m" (-49002) none)
      = .error (.serverBusy ("Server is busy: " ++ "m") "T" (-49002)) :=
  (parse_error_response_taxonomy "T" "m" (-49002) none).1 rfl

/-- C9 counterexample: an envelope with no `event` member makes both parsers
raise ValueError, not ProtocolError, so the claim fails as stated. -/
theorem parse_missing_envelope_not_protocol_error :
    raisedProtocolError (parse_control_response ⟨none⟩) = false ∧
    raisedValueError (parse_control_response ⟨none⟩) = true ∧
    raisedProtocolError (parse_state_response ⟨none⟩) = false ∧
    raisedValueError (parse_state_response ⟨none⟩) = true :=
  ⟨rfl, rfl, rfl, rfl⟩

/-- C9 (amended): for every response envelope missing the `event` field or
its `payload` field, response parsing raises ValueError, for both control
responses and state responses. -/
theorem parse_missing_envelope_value_error (rc : ControlResp) (rs : StateResp)
    (hc : rc.event = none ∨ ∃ ev, rc.event = some ev ∧ ev.payload = none)
    (hs : rs.event = none ∨ ∃ ev, rs.event = some ev ∧ ev.payload = none) :
    raisedValueError (parse_control_response rc) = true ∧
    raisedValueError (parse_state_response rs) = true := by
  constructor
  · rcases hc with h | ⟨ev, hev, hp⟩
    · simp [parse_control_response, h, raisedValueError]
    · simp [parse_control_response, hev, hp, raisedValueError]
  · rcases hs with h | ⟨ev, hev, hp⟩
    · simp [parse_state_response, h, raisedValueError]
    · simp [parse_state_response, hev, hp, raisedValueError]

/-- C9 witness: both parsers on the empty envelope through the amended
theorem. -/
theorem parse_missing_envelope_value_error_witness :
    raisedValueError (parse_control_response ⟨none⟩) = true ∧
    raisedValueError (parse_state_response ⟨none⟩) = true :=
  parse_missing_envelope_value_error ⟨none⟩ ⟨none⟩ (.inl rfl) (.inl rfl)

/-! ### Claims about the reconnect policies -/

theorem listenerNextDelay_iterate (n : Nat) :
    listenerNextDelay^[n] 5 = min (5 * 2 ^ n) 300 := by
  induction n with
  | zero => simp
  | succ n ih =>
    rw [Function.iterate_succ_apply', ih, listenerNextDelay, listenerMaxDelay, pow_succ]
    generalize (2 : Nat) ^ n = k
    omega

theorem listener_foldl_replicate (n : Nat) (d : Nat) (log : List Nat) :
    List.foldl listenerStep (d, log) (List.replicate n .failure)
      = (listenerNextDelay^[n] d,
         log ++ (List.range n).map (fun k => listenerNextDelay^[k] d)) := by
  induction n generalizing d log with
  | zero => simp
  | succ n ih =>
    rw [List.replicate_succ, List.foldl_cons,
      show listenerStep (d, log) .failure = (listenerNextDelay d, log ++ [d]) from rfl, ih]
    have harg : (fun k => listenerNextDelay^[k] (listenerNextDelay d))
        = fun k => listenerNextDelay^[k + 1] d :=
      funext fun k => (Function.iterate_succ_apply listenerNextDelay k d).symm
    simp only [Prod.mk.injEq]
    refine ⟨(Function.iterate_succ_apply listenerNextDelay n d).symm, ?_⟩
    rw [harg, List.range_succ_eq_map, List.map_cons, List.map_map]
    simp [Function.comp_def, List.append_assoc]

theorem ws_foldl_replicate (n : Nat) (log : List Nat) :
    List.foldl wsReconnectStep (wsInitialRetryDelay, log) (List.replicate n .failure)
      = (wsInitialRetryDelay, log ++ List.replicate n wsInitialRetryDelay) := by
  induction n generalizing log with
  | zero => simp
  | succ n ih =>
    rw [List.replicate_succ, List.foldl_cons,
      show wsReconnectStep (wsInitialRetryDelay, log) .failure
        = (wsInitialRetryDelay, log ++ [wsInitialRetryDelay]) from rfl, ih]
    simp [List.replicate_succ, List.append_assoc]

/-- C5 counterexample: the first sleep of the websocket's own reconnect loop
is 10 seconds, not the claimed `min(5 * 2^0, 300) = 5`. -/
theorem ws_reconnect_constant_delay :
    (wsReconnectRun [.failure]).2 = [10] ∧ ¬ (10 : Nat) = min (5 * 2 ^ 0) 300 :=
  ⟨rfl, by decide⟩

/-- C5 (amended): the exponential backoff of the claim is implemented by the
webapp's `run_cloud_listener` loop: after a successful connection resets the
delay, the sleep before reconnect attempt `n+1` of an uninterrupted failure
streak is `min(5 * 2^n, 300)`, whatever happened before the reset.  The
websocket's own `_reconnect` loop instead sleeps a constant 10 seconds on
every failed attempt. -/
theorem reconnect_backoff_policy :
    (∀ (pre : List ConnOutcome) (n : Nat),
      listenerRun (pre ++ .success :: List.replicate n .failure)
        = (min (5 * 2 ^ n) 300,
           (listenerRun (pre ++ [.success])).2
             ++ (List.range n).map (fun k => min (5 * 2 ^ k) 300))) ∧
    (∀ n : Nat, wsReconnectRun (List.replicate n .failure)
        = (wsInitialRetryDelay, List.replicate n wsInitialRetryDelay)) := by
  constructor
  · intro pre n
    have hsplit : pre ++ .success :: List.replicate n ConnOutcome.failure
        = (pre ++ [.success]) ++ List.replicate n .failure := by
      simp
    have hreset : listenerRun (pre ++ [.success])
        = (5, (listenerRun (pre ++ [.success])).2) := by
      rw [listenerRun, List.foldl_append]
      rcases List.foldl listenerStep (5, []) pre with ⟨d, log⟩
      rfl
    rw [listenerRun, hsplit, List.foldl_append,
      show List.foldl listenerStep (5, []) (pre ++ [.success])
        = listenerRun (pre ++ [.success]) from rfl,
      hreset, listener_foldl_replicate]
    simp only [listenerNextDelay_iterate]
  · intro n
    exact ws_foldl_replicate n []

/-! ### Claims about temperature control -/

/-- An online device fixture. -/
def devOnline : Device := ⟨"d1", "p", "Living Room", "m", "s", 1, "c", 1, [], none⟩

/-- An offline device fixture. -/
def devOffline : Device := ⟨"d2", "p", "Bedroom", "m", "s", 1, "c", 0, [], none⟩

/-- A coordinator state holding the online fixture device with its monitor,
trigger and ready slots. -/
def stOnline : CoordState :=
  ⟨[("d1", devOnline)], ["d1"], [("d1", false)], [("d1", false)], true⟩

/-- A coordinator state holding the offline fixture device. -/
def stOffline : CoordState :=
  ⟨[("d2", devOffline)], ["d2"], [("d2", false)], [("d2", false)], true⟩

/-- C2: the coordinator's `set_temperature` accepts 22.5 and sends
`{temp: 225}` and rejects 15.9 before any network call, as claimed; the
manager's `set_temperature`, however, sends the raw Celsius integer
`{temp: 22}` for 22 °C where the claimed encoding is `{temp: 220}`. -/
theorem set_temperature_encoding :
    (coord_set_temperature stOnline "d1" (45 / 2) (.ok [])).calls
      = [("d1", [("temp", 225)])] ∧
    (coord_set_temperature stOnline "d1" (159 / 10) (.ok [])).calls = [] ∧
    (coord_set_temperature stOnline "d1" (159 / 10) (.ok [])).result
      = .error (.hub (.invalidParameter "temperature" (toString (159 / 10 : ℚ)) ["16-30°C"])) ∧
    (mgr_set_temperature [devOnline] "d1" 22 (.ok [])).calls = [("d1", [("temp", 22)])] ∧
    [("temp", (22 : Int))] ≠ [("temp", (220 : Int))] := by
  have hv1 : validate_temperature (45 / 2 : ℚ) = .ok () := by
    rw [validate_temperature, if_pos (by norm_num [MIN_TEMPERATURE, MAX_TEMPERATURE])]
  have hv2 : validate_temperature (159 / 10 : ℚ)
      = .error (.invalidParameter "temperature" (toString (159 / 10 : ℚ)) ["16-30°C"]) := by
    rw [validate_temperature, if_neg (by norm_num [MIN_TEMPERATURE, MAX_TEMPERATURE])]
  have hv3 : validate_temperature ((22 : Int) : ℚ) = .ok () := by
    rw [validate_temperature, if_pos (by norm_num [MIN_TEMPERATURE, MAX_TEMPERATURE])]
  have hp : pyInt ((45 / 2 : ℚ) * 10) = 225 := by
    rw [pyInt, if_pos (by norm_num)]
    norm_num
  refine ⟨?_, ?_, ?_, ?_, by decide⟩
  · rw [coord_set_temperature, hv1, hp]
    rfl
  · rw [coord_set_temperature, hv2]
  · rw [coord_set_temperature, hv2]
  · rw [mgr_set_temperature, show find_device [devOnline] "d1" = .ok devOnline from rfl, hv3]
    rfl

/-! ### Claims about the online flag -/

theorem bulkState_of_missing (sd : List StateEntry) (did : String)
    (h : ∀ s ∈ sd, s.did ≠ did) : bulkState sd did = 0 := by
  have : sd.find? (fun s => s.did = did) = none :=
    List.find?_eq_none.2 fun s hs => by simpa using h s hs
  simp [bulkState, this]

/-! ### Helper lemmas: control dispatch -/

theorem execute_control_not_found {st : CoordState} {id : String} {e : HubError}
    (p : List (String × Int)) (net : Except ApiExc (List (String × Int)))
    (h : find_device (st.devices.map (·.2)) id = .error e) :
    execute_control st id p net = ⟨.error (.hub e), [], st⟩ := by
  simp [execute_control, h]

theorem execute_control_offline {st : CoordState} {id : String} {device : Device}
    (p : List (String × Int)) (net : Except ApiExc (List (String × Int)))
    (hf : find_device (st.devices.map (·.2)) id = .ok device)
    (ho : device.is_online = false) :
    execute_control st id p net
      = ⟨.error (.hub (.deviceOffline device.endpoint_id device.friendly_name)), [], st⟩ := by
  simp [execute_control, hf, ho]

theorem trigger_update_devices (st : CoordState) (id : String) :
    (trigger_update st id).devices = st.devices := by
  rw [trigger_update]
  cases alookup st.triggers id <;> rfl

/-- C8: with the target device found and online, `_execute_control` fires the
trigger exactly when the set-params call succeeds: a success returns the sent
call, fires `trigger_update` and touches nothing else; every failure leaves
the whole coordinator state (trigger included) unchanged and surfaces the
error mapped to the domain taxonomy — ServerBusy for an API ServerBusy (in
particular for a vendor ErrorResponse with status `-49002` run through
`parse_control_response`), DeviceOffline for an API DeviceOffline, and a
generic ClimateHub error for other API errors.  The device map is unchanged
in every case. -/
theorem control_trigger_iff_success (st : CoordState) (device_id : String)
    (params : List (String × Int)) (net : Except ApiExc (List (String × Int)))
    (device : Device)
    (hf : find_device (st.devices.map (·.2)) device_id = .ok device)
    (ho : device.is_online = true) :
    (∀ v, net = .ok v → execute_control st device_id params net
        = ⟨.ok (), [(device.endpoint_id, params)], trigger_update st device.endpoint_id⟩) ∧
    (∀ e, net = .error e → (execute_control st device_id params net).state = st ∧
        (execute_control st device_id params net).result ≠ .ok ()) ∧
    (∀ m t s, net = .error (.serverBusy m t s) →
        (execute_control st device_id params net).result = .error (.hub .serverBusy)) ∧
    (∀ m t s, net = .error (.deviceOffline m t s) →
        (execute_control st device_id params net).result
          = .error (.hub (.deviceOffline device.endpoint_id device.friendly_name))) ∧
    (∀ m t s, net = .error (.auxApi m t s) →
        (execute_control st device_id params net).result = .error (.hub (.climateHub m))) ∧
    (∀ etype emsg d2,
        execute_control st device_id params
            (parse_control_response (mkErrorResp etype emsg (-49002) d2))
          = ⟨.error (.hub .serverBusy), [(device.endpoint_id, params)], st⟩) ∧
    (∀ b, alookup st.triggers device.endpoint_id = some b →
        alookup (trigger_update st device.endpoint_id).triggers device.endpoint_id
          = some true) ∧
    (execute_control st device_id params net).state.devices = st.devices := by
  have hbusy : ∀ etype emsg d2, parse_control_response (mkErrorResp etype emsg (-49002) d2)
      = .error (.serverBusy ("Server is busy: " ++ emsg) etype (-49002)) := by
    intro etype emsg d2
    simp [parse_control_response, mkErrorResp]
  refine ⟨?_, ?_, ?_, ?_, ?_, ?_, ?_, ?_⟩
  · intro v hv
    subst hv
    simp [execute_control, hf, ho]
  · intro e he
    subst he
    cases e <;> simp [execute_control, hf, ho, ApiExc.isAuxApiError]
  · intro m t s hs
    subst hs
    simp [execute_control, hf, ho]
  · intro m t s hs
    subst hs
    simp [execute_control, hf, ho]
  · intro m t s hs
    subst hs
    simp [execute_control, hf, ho, ApiExc.isAuxApiError, ApiExc.str]
  · intro etype emsg d2
    rw [hbusy]
    simp [execute_control, hf, ho]
  · intro b hb
    rw [trigger_update, hb]
    exact alookup_aupdate_self true hb
  · cases net with
    | ok v => simp [execute_control, hf, ho, trigger_update_devices]
    | error e => cases e <;> simp [execute_control, hf, ho, ApiExc.isAuxApiError]

/-- C8 witness: a successful set-params call on the online fixture device
returns the call and fires the trigger. -/
theorem control_trigger_iff_success_witness :
    execute_control stOnline "d1" [("pwr", 0)] (.ok [])
      = ⟨.ok (), [("d1", [("pwr", 0)])], trigger_update stOnline "d1"⟩ :=
  (control_trigger_iff_success stOnline "d1" [("pwr", 0)] (.ok []) devOnline rfl rfl).1 [] rfl

theorem mgr_set_power_not_found {devices : List Device} {id : String} {e : HubError}
    (b : Bool) (net : Except ApiExc (List (String × Int)))
    (h : find_device devices id = .error e) :
    mgr_set_power devices id b net = ⟨.error (.hub e), [], devices⟩ := by
  simp [mgr_set_power, h]

theorem mgr_set_power_offline {devices : List Device} {id : String} {d : Device}
    (b : Bool) (net : Except ApiExc (List (String × Int)))
    (hf : find_device devices id = .ok d) (ho : d.is_online = false) :
    mgr_set_power devices id b net
      = ⟨.error (.hub (.deviceOffline d.endpoint_id d.friendly_name)), [], devices⟩ := by
  simp [mgr_set_power, hf, ho]

theorem mgr_set_temperature_not_found {devices : List Device} {id : String} {e : HubError}
    (t : Int) (net : Except ApiExc (List (String × Int)))
    (h : find_device devices id = .error e) :
    mgr_set_temperature devices id t net = ⟨.error (.hub e), [], devices⟩ := by
  simp [mgr_set_temperature, h]

theorem mgr_set_temperature_offline {devices : List Device} {id : String} {d : Device}
    (t : Int) (net : Except ApiExc (List (String × Int)))
    (hf : find_device devices id = .ok d) (ho : d.is_online = false) :
    mgr_set_temperature devices id t net
      = ⟨.error (.hub (.deviceOffline d.endpoint_id d.friendly_name)), [], devices⟩ := by
  simp [mgr_set_temperature, hf, ho]

theorem mgr_set_temperature_invalid {devices : List Device} {id : String} {d : Device}
    {t : Int} {e : HubError} (net : Except ApiExc (List (String × Int)))
    (hf : find_device devices id = .ok d) (ho : d.is_online = true)
    (hv : validate_temperature (t : ℚ) = .error e) :
    mgr_set_temperature devices id t net = ⟨.error (.hub e), [], devices⟩ := by
  simp [mgr_set_temperature, hf, ho, hv]

theorem mgr_set_mode_not_found {devices : List Device} {id : String} {e : HubError}
    (mode : String) (net : Except ApiExc (List (String × Int)))
    (h : find_device devices id = .error e) :
    mgr_set_mode devices id mode net = ⟨.error (.hub e), [], devices⟩ := by
  simp [mgr_set_mode, h]

theorem mgr_set_mode_offline {devices : List Device} {id : String} {d : Device}
    (mode : String) (net : Except ApiExc (List (String × Int)))
    (hf : find_device devices id = .ok d) (ho : d.is_online = false) :
    mgr_set_mode devices id mode net
      = ⟨.error (.hub (.deviceOffline d.endpoint_id d.friendly_name)), [], devices⟩ := by
  simp [mgr_set_mode, hf, ho]

theorem mgr_set_mode_invalid {devices : List Device} {id : String} {d : Device}
    {mode : String} {e : HubError} (net : Except ApiExc (List (String × Int)))
    (hf : find_device devices id = .ok d) (ho : d.is_online = true)
    (hv : validate_mode mode = .error e) :
    mgr_set_mode devices id mode net = ⟨.error (.hub e), [], devices⟩ := by
  simp [mgr_set_mode, hf, ho, hv]

theorem mgr_set_fan_speed_not_found {devices : List Device} {id : String} {e : HubError}
    (speed : String) (net : Except ApiExc (List (String × Int)))
    (h : find_device devices id = .error e) :
    mgr_set_fan_speed devices id speed net = ⟨.error (.hub e), [], devices⟩ := by
  simp [mgr_set_fan_speed, h]

theorem mgr_set_fan_speed_offline {devices : List Device} {id : String} {d : Device}
    (speed : String) (net : Except ApiExc (List (String × Int)))
    (hf : find_device devices id = .ok d) (ho : d.is_online = false) :
    mgr_set_fan_speed devices id speed net
      = ⟨.error (.hub (.deviceOffline d.endpoint_id d.friendly_name)), [], devices⟩ := by
  simp [mgr_set_fan_speed, hf, ho]

theorem mgr_set_fan_speed_invalid {devices : List Device} {id : String} {d : Device}
    {speed : String} {e : HubError} (net : Except ApiExc (List (String × Int)))
    (hf : find_device devices id = .ok d) (ho : d.is_online = true)
    (hv : validate_fan_speed speed = .error e) :
    mgr_set_fan_speed devices id speed net = ⟨.error (.hub e), [], devices⟩ := by
  simp [mgr_set_fan_speed, hf, ho, hv]

theorem mgr_set_swing_not_found {devices : List Device} {id : String} {e : HubError}
    (dir : String) (b : Bool) (net : Except ApiExc (List (String × Int)))
    (h : find_device devices id = .error e) :
    mgr_set_swing devices id dir b net = ⟨.error (.hub e), [], devices⟩ := by
  simp [mgr_set_swing, h]

theorem mgr_set_swing_offline {devices : List Device} {id : String} {d : Device}
    (dir : String) (b : Bool) (net : Except ApiExc (List (String × Int)))
    (hf : find_device devices id = .ok d) (ho : d.is_online = false) :
    mgr_set_swing devices id dir b net
      = ⟨.error (.hub (.deviceOffline d.endpoint_id d.friendly_name)), [], devices⟩ := by
  simp [mgr_set_swing, hf, ho]

theorem mgr_set_swing_invalid {devices : List Device} {id : String} {d : Device}
    {dir : String} {e : HubError} (b : Bool) (net : Except ApiExc (List (String × Int)))
    (hf : find_device devices id = .ok d) (ho : d.is_online = true)
    (hv : validate_swing_direction dir = .error e) :
    mgr_set_swing devices id dir b net = ⟨.error (.hub e), [], devices⟩ := by
  simp [mgr_set_swing, hf, ho, hv]

/-- C10 counterexample: a device absent from the bulk state payload gets
state 0 and is hence treated as offline, yet the subsequent control
operation `set_fan_speed` with the invalid speed `"fast"` raises
InvalidParameter, not DeviceOffline, so "any subsequent control operation
raises DeviceOffline" fails as stated. -/
theorem offline_device_invalid_fan_speed_not_device_offline :
    bulkState [] "d2" = 0 ∧
    devOffline.is_online = false ∧
    coord_set_fan_speed stOffline "d2" "fast" (.ok [])
      = ⟨.error (.hub (.invalidParameter "fan_speed" "fast"
          ["auto", "low", "medium", "high", "turbo", "mute"])), [], stOffline⟩ ∧
    (coord_set_fan_speed stOffline "d2" "fast" (.ok [])).result
      ≠ .error (.hub (.deviceOffline "d2" "Bedroom")) := by
  refine ⟨rfl, rfl, rfl, ?_⟩
  rw [show coord_set_fan_speed stOffline "d2" "fast" (.ok [])
      = ⟨.error (.hub (.invalidParameter "fan_speed" "fast"
          ["auto", "low", "medium", "high", "turbo", "mute"])), [], stOffline⟩ from rfl]
  simp

/-- C10 (amended): a device is online exactly when its `state` field is 1; a
bulk state payload with no entry for a device id yields state 0, both in the
coordinator's discovery step and in the manager's family refresh; and every
subsequent control operation against such a state-0 device raises
DeviceOffline with no network call and no state change whenever the supplied
parameter passes validation (for the manager's five operations and the
coordinator's `set_power`, always) — the coordinator's four validating
operations raise InvalidParameter instead when the parameter is invalid,
still with no network call. -/
theorem online_state_semantics :
    (∀ d : Device, d.is_online = true ↔ d.state = 1) ∧
    (∀ (sd : List StateEntry) (did : String),
      (∀ s ∈ sd, s.did ≠ did) → bulkState sd did = 0) ∧
    (∀ (st : CoordState) (sd : List StateEntry) (r : RawDevice) (d : Device),
      alookup st.devices r.did = some d → (∀ s ∈ sd, s.did ≠ r.did) →
      alookup (discoverDevice st sd r).devices r.did = some { d with state := 0 }) ∧
    (∀ (sd : List StateEntry) (d : Device),
      (∀ s ∈ sd, s.did ≠ d.endpoint_id) → (mgrUpdateState sd d).state = 0) ∧
    (∀ (st : CoordState) (devices : List Device) (id : String) (dc dm : Device)
        (net : Except ApiExc (List (String × Int))),
      find_device (st.devices.map (·.2)) id = .ok dc → dc.state = 0 →
      find_device devices id = .ok dm → dm.state = 0 →
      (∀ b : Bool, coord_set_power st id b net
          = ⟨.error (.hub (.deviceOffline dc.endpoint_id dc.friendly_name)), [], st⟩) ∧
      (∀ t : ℚ, validate_temperature t = .ok () → coord_set_temperature st id t net
          = ⟨.error (.hub (.deviceOffline dc.endpoint_id dc.friendly_name)), [], st⟩) ∧
      (∀ mode pm, validate_mode mode = .ok pm → coord_set_mode st id mode net
          = ⟨.error (.hub (.deviceOffline dc.endpoint_id dc.friendly_name)), [], st⟩) ∧
      (∀ speed pf, validate_fan_speed speed = .ok pf → coord_set_fan_speed st id speed net
          = ⟨.error (.hub (.deviceOffline dc.endpoint_id dc.friendly_name)), [], st⟩) ∧
      (∀ (dir : String) (b : Bool), validate_swing_direction dir = .ok () →
          coord_set_swing st id dir b net
            = ⟨.error (.hub (.deviceOffline dc.endpoint_id dc.friendly_name)), [], st⟩) ∧
      (∀ (t : ℚ) (e : HubError), validate_temperature t = .error e →
          coord_set_temperature st id t net = ⟨.error (.hub e), [], st⟩) ∧
      (∀ mode e, validate_mode mode = .error e →
          coord_set_mode st id mode net = ⟨.error (.hub e), [], st⟩) ∧
      (∀ speed e, validate_fan_speed speed = .error e →
          coord_set_fan_speed st id speed net = ⟨.error (.hub e), [], st⟩) ∧
      (∀ (dir : String) (b : Bool) (e : HubError), validate_swing_direction dir = .error e →
          coord_set_swing st id dir b net = ⟨.error (.hub e), [], st⟩) ∧
      (∀ b : Bool, mgr_set_power devices id b net
          = ⟨.error (.hub (.deviceOffline dm.endpoint_id dm.friendly_name)), [], devices⟩) ∧
      (∀ t : Int, mgr_set_temperature devices id t net
          = ⟨.error (.hub (.deviceOffline dm.endpoint_id dm.friendly_name)), [], devices⟩) ∧
      (∀ mode : String, mgr_set_mode devices id mode net
          = ⟨.error (.hub (.deviceOffline dm.endpoint_id dm.friendly_name)), [], devices⟩) ∧
      (∀ speed : String, mgr_set_fan_speed devices id speed net
          = ⟨.error (.hub (.deviceOffline dm.endpoint_id dm.friendly_name)), [], devices⟩) ∧
      (∀ (dir : String) (b : Bool), mgr_set_swing devices id dir b net
          = ⟨.error (.hub (.deviceOffline dm.endpoint_id dm.friendly_name)), [], devices⟩)) := by
  refine ⟨?_, ?_, ?_, ?_, ?_⟩
  · intro d
    simp [Device.is_online, DeviceState.ONLINE]
  · exact bulkState_of_missing
  · intro st sd r d hfound hmiss
    have hstep : (discoverDevice st sd r).devices
        = aupdate st.devices r.did ({ d with state := bulkState sd r.did }) := by
      simp [discoverDevice, hfound]
    rw [hstep]
    simpa [bulkState_of_missing sd r.did hmiss] using
      alookup_aupdate_self ({ d with state := bulkState sd r.did }) hfound
  · intro sd d h
    simp [mgrUpdateState, bulkState_of_missing sd d.endpoint_id h]
  · intro st devices id dc dm net hfc hsc hfm hsm
    have hoc : dc.is_online = false := by
      simp [Device.is_online, hsc, DeviceState.OFFLINE, DeviceState.ONLINE]
    have hom : dm.is_online = false := by
      simp [Device.is_online, hsm, DeviceState.OFFLINE, DeviceState.ONLINE]
    refine ⟨?_, ?_, ?_, ?_, ?_, ?_, ?_, ?_, ?_, ?_, ?_, ?_, ?_, ?_⟩
    · intro b
      rw [coord_set_power]
      exact execute_control_offline _ net hfc hoc
    · intro t hv
      rw [coord_set_temperature, hv]
      exact execute_control_offline _ net hfc hoc
    · intro mode pm hv
      rw [coord_set_mode, hv]
      exact execute_control_offline _ net hfc hoc
    · intro speed pf hv
      rw [coord_set_fan_speed, hv]
      exact execute_control_offline _ net hfc hoc
    · intro dir b hv
      rw [coord_set_swing, hv]
      exact execute_control_offline _ net hfc hoc
    · intro t e hv
      rw [coord_set_temperature, hv]
    · intro mode e hv
      rw [coord_set_mode, hv]
    · intro speed e hv
      rw [coord_set_fan_speed, hv]
    · intro dir b e hv
      rw [coord_set_swing, hv]
    · intro b
      exact mgr_set_power_offline b net hfm hom
    · intro t
      exact mgr_set_temperature_offline t net hfm hom
    · intro mode
      exact mgr_set_mode_offline mode net hfm hom
    · intro speed
      exact mgr_set_fan_speed_offline speed net hfm hom
    · intro dir b
      exact mgr_set_swing_offline dir b net hfm hom

/-- C10 witness: `set_power` on the state-0 fixture device raises
DeviceOffline without any network call, through the amended theorem. -/
theorem online_state_semantics_witness :
    coord_set_power stOffline "d2" true (.ok [])
      = ⟨.error (.hub (.deviceOffline "d2" "Bedroom")), [], stOffline⟩ :=
  ((online_state_semantics.2.2.2.2 stOffline [devOffline] "d2" devOffline devOffline
      (.ok []) rfl rfl rfl rfl).1) true

/-- C1 counterexample: `coord_set_mode` on an offline device with the invalid
mode `"warm"` raises InvalidParameter, not DeviceOffline, because the
coordinator validates the parameter before looking the device up. -/
theorem offline_invalid_mode_not_device_offline :
    coord_set_mode stOffline "d2" "warm" (.ok [])
      = ⟨.error (.hub (.invalidParameter "mode" "warm" ["cool", "heat", "dry", "fan", "auto"])),
         [], stOffline⟩ ∧
    (coord_set_mode stOffline "d2" "warm" (.ok [])).result
      ≠ .error (.hub (.deviceOffline "d2" "Bedroom")) := by
  refine ⟨rfl, ?_⟩
  rw [show coord_set_mode stOffline "d2" "warm" (.ok [])
      = ⟨.error (.hub (.invalidParameter "mode" "warm" ["cool", "heat", "dry", "fan", "auto"])),
         [], stOffline⟩ from rfl]
  simp

/-- C1 (amended): on a device whose cached online flag is false, every
control operation performs no network call and leaves both the coordinator
state and the manager device list unchanged; the manager operations and the
coordinator's `set_power` always raise DeviceOffline, and the coordinator's
validating operations raise DeviceOffline whenever the supplied parameter
passes validation — with an invalid parameter they raise InvalidParameter
instead (still with no network call and no state change). -/
theorem control_offline_no_network (st : CoordState) (devices : List Device) (id : String)
    (dc dm : Device) (net : Except ApiExc (List (String × Int)))
    (hfc : find_device (st.devices.map (·.2)) id = .ok dc) (hoc : dc.is_online = false)
    (hfm : find_device devices id = .ok dm) (hom : dm.is_online = false) :
    (∀ b : Bool, coord_set_power st id b net
        = ⟨.error (.hub (.deviceOffline dc.endpoint_id dc.friendly_name)), [], st⟩) ∧
    (∀ t : ℚ, validate_temperature t = .ok () → coord_set_temperature st id t net
        = ⟨.error (.hub (.deviceOffline dc.endpoint_id dc.friendly_name)), [], st⟩) ∧
    (∀ (t : ℚ) (e : HubError), validate_temperature t = .error e →
        coord_set_temperature st id t net = ⟨.error (.hub e), [], st⟩) ∧
    (∀ mode pm, validate_mode mode = .ok pm → coord_set_mode st id mode net
        = ⟨.error (.hub (.deviceOffline dc.endpoint_id dc.friendly_name)), [], st⟩) ∧
    (∀ mode e, validate_mode mode = .error e →
        coord_set_mode st id mode net = ⟨.error (.hub e), [], st⟩) ∧
    (∀ speed pf, validate_fan_speed speed = .ok pf → coord_set_fan_speed st id speed net
        = ⟨.error (.hub (.deviceOffline dc.endpoint_id dc.friendly_name)), [], st⟩) ∧
    (∀ speed e, validate_fan_speed speed = .error e →
        coord_set_fan_speed st id speed net = ⟨.error (.hub e), [], st⟩) ∧
    (∀ (dir : String) (b : Bool), validate_swing_direction dir = .ok () →
        coord_set_swing st id dir b net
          = ⟨.error (.hub (.deviceOffline dc.endpoint_id dc.friendly_name)), [], st⟩) ∧
    (∀ (dir : String) (b : Bool) (e : HubError), validate_swing_direction dir = .error e →
        coord_set_swing st id dir b net = ⟨.error (.hub e), [], st⟩) ∧
    (∀ b : Bool, mgr_set_power devices id b net
        = ⟨.error (.hub (.deviceOffline dm.endpoint_id dm.friendly_name)), [], devices⟩) ∧
    (∀ t : Int, mgr_set_temperature devices id t net
        = ⟨.error (.hub (.deviceOffline dm.endpoint_id dm.friendly_name)), [], devices⟩) ∧
    (∀ mode : String, mgr_set_mode devices id mode net
        = ⟨.error (.hub (.deviceOffline dm.endpoint_id dm.friendly_name)), [], devices⟩) ∧
    (∀ speed : String, mgr_set_fan_speed devices id speed net
        = ⟨.error (.hub (.deviceOffline dm.endpoint_id dm.friendly_name)), [], devices⟩) ∧
    (∀ (dir : String) (b : Bool), mgr_set_swing devices id dir b net
        = ⟨.error (.hub (.deviceOffline dm.endpoint_id dm.friendly_name)), [], devices⟩) := by
  refine ⟨?_, ?_, ?_, ?_, ?_, ?_, ?_, ?_, ?_, ?_, ?_, ?_, ?_, ?_⟩
  · intro b
    rw [coord_set_power]
    exact execute_control_offline _ net hfc hoc
  · intro t hv
    rw [coord_set_temperature, hv]
    exact execute_control_offline _ net hfc hoc
  · intro t e hv
    rw [coord_set_temperature, hv]
  · intro mode pm hv
    rw [coord_set_mode, hv]
    exact execute_control_offline _ net hfc hoc
  · intro mode e hv
    rw [coord_set_mode, hv]
  · intro speed pf hv
    rw [coord_set_fan_speed, hv]
    exact execute_control_offline _ net hfc hoc
  · intro speed e hv
    rw [coord_set_fan_speed, hv]
  · intro dir b hv
    rw [coord_set_swing, hv]
    exact execute_control_offline _ net hfc hoc
  · intro dir b e hv
    rw [coord_set_swing, hv]
  · intro b
    exact mgr_set_power_offline b net hfm hom
  · intro t
    exact mgr_set_temperature_offline t net hfm hom
  · intro mode
    exact mgr_set_mode_offline mode net hfm hom
  · intro speed
    exact mgr_set_fan_speed_offline speed net hfm hom
  · intro dir b
    exact mgr_set_swing_offline dir b net hfm hom

/-- C1 witness: `set_mode` with the valid mode `"cool"` on the offline
fixture device raises DeviceOffline with no network call. -/
theorem control_offline_no_network_witness :
    coord_set_mode stOffline "d2" "cool" (.ok [])
      = ⟨.error (.hub (.deviceOffline "d2" "Bedroom")), [], stOffline⟩ :=
  ((control_offline_no_network stOffline [devOffline] "d2" devOffline devOffline (.ok [])
      rfl rfl rfl rfl).2.2.2.1) "cool" [("ac_mode", 0)] rfl

/-- C3 counterexample: `coord_set_temperature` on an empty twin with the
out-of-range temperature 99 raises InvalidParameter, not the DeviceNotFound
the claimed precedence demands, because the coordinator validates before
looking the device up. -/
theorem not_found_device_invalid_temperature_precedence :
    coord_set_temperature ⟨[], [], [], [], false⟩ "ghost" 99 (.ok [])
      = ⟨.error (.hub (.invalidParameter "temperature" (toString (99 : ℚ)) ["16-30°C"])), [],
         ⟨[], [], [], [], false⟩⟩ ∧
    (coord_set_temperature ⟨[], [], [], [], false⟩ "ghost" 99 (.ok [])).result
      ≠ .error (.hub (.deviceNotFound "ghost")) := by
  have hv : validate_temperature (99 : ℚ)
      = .error (.invalidParameter "temperature" (toString (99 : ℚ)) ["16-30°C"]) := by
    rw [validate_temperature, if_neg (by norm_num [MIN_TEMPERATURE, MAX_TEMPERATURE])]
  have h1 : coord_set_temperature ⟨[], [], [], [], false⟩ "ghost" 99 (.ok [])
      = ⟨.error (.hub (.invalidParameter "temperature" (toString (99 : ℚ)) ["16-30°C"])), [],
         ⟨[], [], [], [], false⟩⟩ := by
    rw [coord_set_temperature, hv]
  refine ⟨h1, ?_⟩
  rw [h1]
  simp

/-- C3 (amended): the manager's five control operations follow the spec's
step order — DeviceNotFound when the lookup fails (whatever the parameter),
DeviceOffline next (before validation), and InvalidParameter only for a
found, online device.  The coordinator's `set_power` follows the same order;
its four validating operations check the parameter first, so InvalidParameter
takes precedence there, and with a valid parameter the lookup error and the
offline check behave as the claim states. -/
theorem control_error_precedence (st : CoordState) (devices : List Device) (id : String)
    (net : Except ApiExc (List (String × Int))) :
    (∀ (e : HubError) (b : Bool), find_device devices id = .error e →
        mgr_set_power devices id b net = ⟨.error (.hub e), [], devices⟩) ∧
    (∀ (e : HubError) (t : Int), find_device devices id = .error e →
        mgr_set_temperature devices id t net = ⟨.error (.hub e), [], devices⟩) ∧
    (∀ (e : HubError) (mode : String), find_device devices id = .error e →
        mgr_set_mode devices id mode net = ⟨.error (.hub e), [], devices⟩) ∧
    (∀ (e : HubError) (speed : String), find_device devices id = .error e →
        mgr_set_fan_speed devices id speed net = ⟨.error (.hub e), [], devices⟩) ∧
    (∀ (e : HubError) (dir : String) (b : Bool), find_device devices id = .error e →
        mgr_set_swing devices id dir b net = ⟨.error (.hub e), [], devices⟩) ∧
    (∀ (d : Device) (t : Int), find_device devices id = .ok d → d.is_online = false →
        mgr_set_temperature devices id t net
          = ⟨.error (.hub (.deviceOffline d.endpoint_id d.friendly_name)), [], devices⟩) ∧
    (∀ (d : Device) (mode : String), find_device devices id = .ok d → d.is_online = false →
        mgr_set_mode devices id mode net
          = ⟨.error (.hub (.deviceOffline d.endpoint_id d.friendly_name)), [], devices⟩) ∧
    (∀ (d : Device) (speed : String), find_device devices id = .ok d → d.is_online = false →
        mgr_set_fan_speed devices id speed net
          = ⟨.error (.hub (.deviceOffline d.endpoint_id d.friendly_name)), [], devices⟩) ∧
    (∀ (d : Device) (dir : String) (b : Bool), find_device devices id = .ok d →
        d.is_online = false → mgr_set_swing devices id dir b net
          = ⟨.error (.hub (.deviceOffline d.endpoint_id d.friendly_name)), [], devices⟩) ∧
    (∀ (d : Device) (t : Int) (e : HubError), find_device devices id = .ok d →
        d.is_online = true → validate_temperature (t : ℚ) = .error e →
        mgr_set_temperature devices id t net = ⟨.error (.hub e), [], devices⟩) ∧
    (∀ (d : Device) (mode : String) (e : HubError), find_device devices id = .ok d →
        d.is_online = true → validate_mode mode = .error e →
        mgr_set_mode devices id mode net = ⟨.error (.hub e), [], devices⟩) ∧
    (∀ (d : Device) (speed : String) (e : HubError), find_device devices id = .ok d →
        d.is_online = true → validate_fan_speed speed = .error e →
        mgr_set_fan_speed devices id speed net = ⟨.error (.hub e), [], devices⟩) ∧
    (∀ (d : Device) (dir : String) (b : Bool) (e : HubError), find_device devices id = .ok d →
        d.is_online = true → validate_swing_direction dir = .error e →
        mgr_set_swing devices id dir b net = ⟨.error (.hub e), [], devices⟩) ∧
    (∀ (e : HubError) (b : Bool), find_device (st.devices.map (·.2)) id = .error e →
        coord_set_power st id b net = ⟨.error (.hub e), [], st⟩) ∧
    (∀ (e : HubError) (t : ℚ), validate_temperature t = .ok () →
        find_device (st.devices.map (·.2)) id = .error e →
        coord_set_temperature st id t net = ⟨.error (.hub e), [], st⟩) ∧
    (∀ (e : HubError) (mode : String) (pm : List (String × Int)),
        validate_mode mode = .ok pm → find_device (st.devices.map (·.2)) id = .error e →
        coord_set_mode st id mode net = ⟨.error (.hub e), [], st⟩) ∧
    (∀ (e : HubError) (speed : String) (pf : List (String × Int)),
        validate_fan_speed speed = .ok pf → find_device (st.devices.map (·.2)) id = .error e →
        coord_set_fan_speed st id speed net = ⟨.error (.hub e), [], st⟩) ∧
    (∀ (e : HubError) (dir : String) (b : Bool), validate_swing_direction dir = .ok () →
        find_device (st.devices.map (·.2)) id = .error e →
        coord_set_swing st id dir b net = ⟨.error (.hub e), [], st⟩) ∧
    (∀ (t : ℚ) (e : HubError), validate_temperature t = .error e →
        coord_set_temperature st id t net = ⟨.error (.hub e), [], st⟩) ∧
    (∀ (mode : String) (e : HubError), validate_mode mode = .error e →
        coord_set_mode st id mode net = ⟨.error (.hub e), [], st⟩) ∧
    (∀ (speed : String) (e : HubError), validate_fan_speed speed = .error e →
        coord_set_fan_speed st id speed net = ⟨.error (.hub e), [], st⟩) ∧
    (∀ (dir : String) (b : Bool) (e : HubError), validate_swing_direction dir = .error e →
        coord_set_swing st id dir b net = ⟨.error (.hub e), [], st⟩) := by
  refine ⟨fun e b h => mgr_set_power_not_found b net h,
    fun e t h => mgr_set_temperature_not_found t net h,
    fun e mode h => mgr_set_mode_not_found mode net h,
    fun e speed h => mgr_set_fan_speed_not_found speed net h,
    fun e dir b h => mgr_set_swing_not_found dir b net h,
    fun d t hf ho => mgr_set_temperature_offline t net hf ho,
    fun d mode hf ho => mgr_set_mode_offline mode net hf ho,
    fun d speed hf ho => mgr_set_fan_speed_offline speed net hf ho,
    fun d dir b hf ho => mgr_set_swing_offline dir b net hf ho,
    fun d t e hf ho hv => mgr_set_temperature_invalid net hf ho hv,
    fun d mode e hf ho hv => mgr_set_mode_invalid net hf ho hv,
    fun d speed e hf ho hv => mgr_set_fan_speed_invalid net hf ho hv,
    fun d dir b e hf ho hv => mgr_set_swing_invalid b net hf ho hv,
    ?_, ?_, ?_, ?_, ?_, ?_, ?_, ?_, ?_⟩
  · intro e b h
    rw [coord_set_power]
    exact execute_control_not_found _ net h
  · intro e t hv h
    rw [coord_set_temperature, hv]
    exact execute_control_not_found _ net h
  · intro e mode pm hv h
    rw [coord_set_mode, hv]
    exact execute_control_not_found _ net h
  · intro e speed pf hv h
    rw [coord_set_fan_speed, hv]
    exact execute_control_not_found _ net h
  · intro e dir b hv h
    rw [coord_set_swing, hv]
    exact execute_control_not_found _ net h
  · intro t e hv
    rw [coord_set_temperature, hv]
  · intro mode e hv
    rw [coord_set_mode, hv]
  · intro speed e hv
    rw [coord_set_fan_speed, hv]
  · intro dir b e hv
    rw [coord_set_swing, hv]

/-- C3 witness: an unknown id with an invalid mode through the manager
raises DeviceNotFound, the step-order precedence of the claim. -/
theorem control_error_precedence_witness :
    mgr_set_mode [devOnline] "ghost" "warm" (.ok [])
      = ⟨.error (.hub (.deviceNotFound "ghost")), [], [devOnline]⟩ :=
  (control_error_precedence stOnline [devOnline] "ghost" (.ok [])).2.2.1
    (.deviceNotFound "ghost") "warm" rfl

/-! ### Helper lemmas: the discovery step -/

/-- One raw device together with the bulk state payload of its family: the
unit of work of the discovery pass, used to linearize the nested family and
device loops for reasoning. -/
structure DiscEntry where
  raw : RawDevice
  sd : List StateEntry
deriving DecidableEq

/-- The discovery pass on one linearized entry. -/
def discoverEntry (st : CoordState) (e : DiscEntry) : CoordState :=
  discoverDevice st e.sd e.raw

/-- The entries of a vendor response in processing order. -/
def discEntries (resp : VendorResp) : List DiscEntry :=
  resp.families.flatMap (fun f => f.devicesRaw.map (fun r => DiscEntry.mk r f.stateData))

/-- The id of a linearized entry. -/
def entryDid (e : DiscEntry) : String := e.raw.did

theorem discoverFams_eq (fams : List FamilyResp) (st : CoordState) :
    fams.foldl (fun s f => f.devicesRaw.foldl (fun s2 r => discoverDevice s2 f.stateData r) s) st
      = (fams.flatMap (fun f => f.devicesRaw.map (fun r => DiscEntry.mk r f.stateData))).foldl
          discoverEntry st := by
  induction fams generalizing st with
  | nil => rfl
  | cons f fs ih =>
    rw [List.foldl_cons, List.flatMap_cons, List.foldl_append, List.foldl_map, ih]
    rfl

theorem discoverAll_eq (st : CoordState) (resp : VendorResp) :
    discoverAll st resp = (discEntries resp).foldl discoverEntry st :=
  discoverFams_eq resp.families st

theorem respIds_eq (resp : VendorResp) :
    respIds resp = (discEntries resp).map entryDid := by
  simp [respIds, discEntries, List.map_flatMap, List.map_map, entryDid, Function.comp_def]

theorem start_monitor_devices (st : CoordState) (id : String) :
    (start_monitor st id).devices = st.devices := by
  by_cases h : id ∈ st.monitors <;> simp [start_monitor, h]

theorem discoverDevice_devices (st : CoordState) (sd : List StateEntry) (r : RawDevice) :
    (discoverDevice st sd r).devices
      = match alookup st.devices r.did with
        | none => st.devices
            ++ [(r.did, { deviceFromRaw r with state := bulkState sd r.did })]
        | some d => aupdate st.devices r.did ({ d with state := bulkState sd r.did }) := by
  cases hl : alookup st.devices r.did with
  | none =>
    by_cases hrun : st.discoveryRunning <;>
      simp [discoverDevice, hl, hrun, start_monitor_devices]
  | some d => simp [discoverDevice, hl]

theorem discoverDevice_mem_keys (st : CoordState) (sd : List StateEntry) (r : RawDevice)
    (id : String) :
    id ∈ akeys (discoverDevice st sd r).devices
      ↔ id ∈ akeys st.devices ∨ id = r.did := by
  rw [discoverDevice_devices]
  cases hl : alookup st.devices r.did with
  | none => simp [akeys]
  | some d =>
    rw [show (match some d with
        | none => st.devices ++ [(r.did, { deviceFromRaw r with state := bulkState sd r.did })]
        | some d => aupdate st.devices r.did ({ d with state := bulkState sd r.did }))
      = aupdate st.devices r.did ({ d with state := bulkState sd r.did }) from rfl]
    rw [show akeys (aupdate st.devices r.did ({ d with state := bulkState sd r.did }))
      = akeys st.devices from akeys_aupdate _ _ _]
    constructor
    · exact Or.inl
    · rintro (h | rfl)
      · exact h
      · exact alookup_mem_keys hl

theorem discoverDevice_lookup_ne (st : CoordState) (sd : List StateEntry) (r : RawDevice)
    (id : String) (h : id ≠ r.did) :
    alookup (discoverDevice st sd r).devices id = alookup st.devices id := by
  rw [discoverDevice_devices]
  cases hl : alookup st.devices r.did with
  | none =>
    rw [show (match (none : Option Device) with
        | none => st.devices ++ [(r.did, { deviceFromRaw r with state := bulkState sd r.did })]
        | some d => aupdate st.devices r.did ({ d with state := bulkState sd r.did }))
      = st.devices ++ [(r.did, { deviceFromRaw r with state := bulkState sd r.did })] from rfl]
    rw [alookup_append, alookup_cons]
    rw [if_neg (fun hc => h hc.symm)]
    cases alookup st.devices id <;> rfl
  | some d =>
    rw [show (match some d with
        | none => st.devices ++ [(r.did, { deviceFromRaw r with state := bulkState sd r.did })]
        | some d => aupdate st.devices r.did ({ d with state := bulkState sd r.did }))
      = aupdate st.devices r.did ({ d with state := bulkState sd r.did }) from rfl]
    exact alookup_aupdate_ne _ _ h

theorem foldl_discover_mem_keys (l : List DiscEntry) (st : CoordState) (id : String) :
    id ∈ akeys ((l.foldl discoverEntry st).devices)
      ↔ id ∈ akeys st.devices ∨ id ∈ l.map entryDid := by
  induction l generalizing st with
  | nil => simp
  | cons e t ih =>
    rw [List.foldl_cons, ih, discoverEntry, discoverDevice_mem_keys]
    simp only [List.map_cons, List.mem_cons, entryDid]
    tauto

theorem foldl_discover_lookup_ne (l : List DiscEntry) (st : CoordState) (id : String)
    (h : id ∉ l.map entryDid) :
    alookup ((l.foldl discoverEntry st).devices) id = alookup st.devices id := by
  induction l generalizing st with
  | nil => rfl
  | cons e t ih =>
    simp only [List.map_cons, List.mem_cons, entryDid] at h
    push_neg at h
    rw [List.foldl_cons, ih _ h.2, discoverEntry, discoverDevice_lookup_ne _ _ _ _ h.1]

theorem foldl_discover_insert (l1 l2 : List DiscEntry) (e : DiscEntry) (st : CoordState)
    (h1 : entryDid e ∉ l1.map entryDid) (h2 : entryDid e ∉ l2.map entryDid)
    (hl : alookup st.devices (entryDid e) = none) :
    alookup (((l1 ++ e :: l2).foldl discoverEntry st).devices) (entryDid e)
      = some { deviceFromRaw e.raw with state := bulkState e.sd (entryDid e) } := by
  rw [List.foldl_append, List.foldl_cons, foldl_discover_lookup_ne l2 _ _ h2]
  have hpre : alookup ((l1.foldl discoverEntry st).devices) (entryDid e) = none := by
    rw [foldl_discover_lookup_ne l1 st _ h1, hl]
  simp only [discoverEntry, entryDid] at hpre ⊢
  rw [discoverDevice_devices, hpre]
  rw [show (match (none : Option Device) with
      | none => (l1.foldl discoverEntry st).devices
          ++ [(e.raw.did, { deviceFromRaw e.raw with state := bulkState e.sd e.raw.did })]
      | some d => aupdate (l1.foldl discoverEntry st).devices e.raw.did
          ({ d with state := bulkState e.sd e.raw.did }))
    = (l1.foldl discoverEntry st).devices
        ++ [(e.raw.did, { deviceFromRaw e.raw with state := bulkState e.sd e.raw.did })]
    from rfl]
  rw [alookup_append, hpre, alookup_cons]
  simp

theorem foldl_discover_update (l1 l2 : List DiscEntry) (e : DiscEntry) (st : CoordState)
    (d : Device) (h1 : entryDid e ∉ l1.map entryDid) (h2 : entryDid e ∉ l2.map entryDid)
    (hl : alookup st.devices (entryDid e) = some d) :
    alookup (((l1 ++ e :: l2).foldl discoverEntry st).devices) (entryDid e)
      = some { d with state := bulkState e.sd (entryDid e) } := by
  rw [List.foldl_append, List.foldl_cons, foldl_discover_lookup_ne l2 _ _ h2]
  have hpre : alookup ((l1.foldl discoverEntry st).devices) (entryDid e) = some d := by
    rw [foldl_discover_lookup_ne l1 st _ h1, hl]
  simp only [discoverEntry, entryDid] at hpre ⊢
  rw [discoverDevice_devices, hpre]
  rw [show (match some d with
      | none => (l1.foldl discoverEntry st).devices
          ++ [(e.raw.did, { deviceFromRaw e.raw with state := bulkState e.sd e.raw.did })]
      | some d => aupdate (l1.foldl discoverEntry st).devices e.raw.did
          ({ d with state := bulkState e.sd e.raw.did }))
    = aupdate (l1.foldl discoverEntry st).devices e.raw.did
        ({ d with state := bulkState e.sd e.raw.did })
    from rfl]
  exact alookup_aupdate_self _ hpre

theorem mem_removedOf (st : CoordState) (discovered : List String) (id : String) :
    id ∈ removedOf st discovered ↔ id ∈ akeys st.devices ∧ id ∉ discovered := by
  simp [removedOf, List.mem_filter]

theorem discoverAll_mem_keys (st : CoordState) (resp : VendorResp) (id : String) :
    id ∈ akeys (discoverAll st resp).devices
      ↔ id ∈ akeys st.devices ∨ id ∈ respIds resp := by
  rw [discoverAll_eq, foldl_discover_mem_keys, respIds_eq]

/-- Membership in the twin after one discovery step is exactly membership in
the response id set, whatever the previous twin contents. -/
theorem discovery_step_mem_keys (st : CoordState) (resp : VendorResp) (id : String) :
    id ∈ akeys (discovery_step st resp).devices ↔ id ∈ respIds resp := by
  rw [discovery_step]
  rw [show (discoveryCleanup (discoverAll st resp) (respIds resp)).devices
    = (discoverAll st resp).devices.filter
        (fun p => decide (p.1 ∉ removedOf (discoverAll st resp) (respIds resp))) from rfl]
  simp only [akeys, List.mem_map, List.mem_filter, decide_eq_true_eq]
  constructor
  · rintro ⟨p, ⟨hm, hnr⟩, rfl⟩
    by_contra hid
    apply hnr
    rw [mem_removedOf]
    exact ⟨List.mem_map_of_mem (·.1) hm, hid⟩
  · intro hid
    have hin1 : id ∈ akeys (discoverAll st resp).devices :=
      (discoverAll_mem_keys st resp id).2 (Or.inr hid)
    obtain ⟨p, hm, hpeq⟩ := List.mem_map.1 hin1
    refine ⟨p, ⟨hm, ?_⟩, hpeq⟩
    intro hc
    exact ((mem_removedOf _ _ _).1 hc).2 (hpeq ▸ hid)

/-- C7: after one discovery step over a response listing id set S, twin
membership equals S; ids new to the twin are inserted as freshly constructed
devices carrying the state from their family's bulk query; known ids keep
their device record with only the state field replaced; every previously
known id the response no longer lists loses its device, monitor, trigger and
ready entries; and a second step over the same response changes no
membership. -/
theorem discovery_step_convergence (st : CoordState) (resp : VendorResp)
    (hids : (respIds resp).Nodup) :
    (∀ id, id ∈ akeys (discovery_step st resp).devices ↔ id ∈ respIds resp) ∧
    (∀ f r, f ∈ resp.families → r ∈ f.devicesRaw → alookup st.devices r.did = none →
      alookup (discovery_step st resp).devices r.did
        = some { deviceFromRaw r with state := bulkState f.stateData r.did }) ∧
    (∀ f r d, f ∈ resp.families → r ∈ f.devicesRaw → alookup st.devices r.did = some d →
      alookup (discovery_step st resp).devices r.did
        = some { d with state := bulkState f.stateData r.did }) ∧
    (∀ id, id ∈ akeys st.devices → id ∉ respIds resp →
      alookup (discovery_step st resp).devices id = none ∧
      id ∉ (discovery_step st resp).monitors ∧
      alookup (discovery_step st resp).triggers id = none ∧
      alookup (discovery_step st resp).ready id = none) ∧
    (∀ id, id ∈ akeys (discovery_step (discovery_step st resp) resp).devices
      ↔ id ∈ akeys (discovery_step st resp).devices) := by
  have hsplitNodup : ∀ (l1 l2 : List DiscEntry) (e : DiscEntry),
      discEntries resp = l1 ++ e :: l2 →
      entryDid e ∉ l1.map entryDid ∧ entryDid e ∉ l2.map entryDid
        ∧ entryDid e ∈ respIds resp := by
    intro l1 l2 e hsplit
    have hmap : respIds resp = (l1.map entryDid) ++ entryDid e :: (l2.map entryDid) := by
      rw [respIds_eq, hsplit]
      simp
    have hnd := hids
    rw [hmap] at hnd
    refine ⟨?_, (List.nodup_cons.1 (List.nodup_append.1 hnd).2.1).1, by rw [hmap]; simp⟩
    intro hc
    exact (List.nodup_append.1 hnd).2.2 hc (List.mem_cons_self _ _)
  have hkeepS : ∀ k, k ∈ respIds resp →
      ∀ p : String × Device, p.1 = k →
        (decide (p.1 ∉ removedOf (discoverAll st resp) (respIds resp))) = true := by
    intro k hk p hp
    rw [hp]
    simp [mem_removedOf, hk]
  refine ⟨discovery_step_mem_keys st resp, ?_, ?_, ?_, ?_⟩
  · intro f r hf hr hnone
    have he : (⟨r, f.stateData⟩ : DiscEntry) ∈ discEntries resp :=
      List.mem_flatMap.2 ⟨f, hf, List.mem_map_of_mem _ hr⟩
    obtain ⟨l1, l2, hsplit⟩ := List.append_of_mem he
    obtain ⟨h1, h2, hmemS⟩ := hsplitNodup l1 l2 _ hsplit
    have hmemS2 : r.did ∈ respIds resp := hmemS
    rw [discovery_step,
      show (discoveryCleanup (discoverAll st resp) (respIds resp)).devices
        = (discoverAll st resp).devices.filter
            (fun p => decide (p.1 ∉ removedOf (discoverAll st resp) (respIds resp)))
        from rfl,
      alookup_filter_of_keep _ _ _ (hkeepS _ hmemS2),
      discoverAll_eq, hsplit]
    exact foldl_discover_insert l1 l2 _ st h1 h2 hnone
  · intro f r d hf hr hsome
    have he : (⟨r, f.stateData⟩ : DiscEntry) ∈ discEntries resp :=
      List.mem_flatMap.2 ⟨f, hf, List.mem_map_of_mem _ hr⟩
    obtain ⟨l1, l2, hsplit⟩ := List.append_of_mem he
    obtain ⟨h1, h2, hmemS⟩ := hsplitNodup l1 l2 _ hsplit
    have hmemS2 : r.did ∈ respIds resp := hmemS
    rw [discovery_step,
      show (discoveryCleanup (discoverAll st resp) (respIds resp)).devices
        = (discoverAll st resp).devices.filter
            (fun p => decide (p.1 ∉ removedOf (discoverAll st resp) (respIds resp)))
        from rfl,
      alookup_filter_of_keep _ _ _ (hkeepS _ hmemS2),
      discoverAll_eq, hsplit]
    exact foldl_discover_update l1 l2 _ st d h1 h2 hsome
  · intro id hold hnot
    have hin1 : id ∈ akeys (discoverAll st resp).devices :=
      (discoverAll_mem_keys st resp id).2 (Or.inl hold)
    have hrem : id ∈ removedOf (discoverAll st resp) (respIds resp) :=
      (mem_removedOf _ _ _).2 ⟨hin1, hnot⟩
    refine ⟨?_, ?_, ?_, ?_⟩
    · rw [discovery_step,
        show (discoveryCleanup (discoverAll st resp) (respIds resp)).devices
          = (discoverAll st resp).devices.filter
              (fun p => decide (p.1 ∉ removedOf (discoverAll st resp) (respIds resp)))
          from rfl]
      exact alookup_filter_of_drop _ _ _ (fun p hp => by simp [hp, hrem])
    · rw [discovery_step,
        show (discoveryCleanup (discoverAll st resp) (respIds resp)).monitors
          = (discoverAll st resp).monitors.filter
              (fun i => decide (i ∉ removedOf (discoverAll st resp) (respIds resp)))
          from rfl]
      intro hc
      have hd := (List.mem_filter.1 hc).2
      rw [decide_eq_true_eq] at hd
      exact hd hrem
    · rw [discovery_step,
        show (discoveryCleanup (discoverAll st resp) (respIds resp)).triggers
          = (discoverAll st resp).triggers.filter
              (fun p => decide (p.1 ∉ removedOf (discoverAll st resp) (respIds resp)))
          from rfl]
      exact alookup_filter_of_drop _ _ _ (fun p hp => by simp [hp, hrem])
    · rw [discovery_step,
        show (discoveryCleanup (discoverAll st resp) (respIds resp)).ready
          = (discoverAll st resp).ready.filter
              (fun p => decide (p.1 ∉ removedOf (discoverAll st resp) (respIds resp)))
          from rfl]
      exact alookup_filter_of_drop _ _ _ (fun p hp => by simp [hp, hrem])
  · intro id
    rw [discovery_step_mem_keys, discovery_step_mem_keys]

/-- C7 witness: a concrete discovery step that keeps one known device
(updating only its state), inserts one new device with its bulk state, and
removes one stale device with all its entries. -/
theorem discovery_step_convergence_witness :
    alookup (discovery_step
        ⟨[("d1", devOnline), ("gone", devOffline)], ["d1", "gone"],
         [("d1", false), ("gone", false)], [("d1", true), ("gone", true)], true⟩
        ⟨[⟨"f1", [⟨"d1", "p", "Living Room", "m", "s", 1, "c"⟩,
                  ⟨"d9", "p", "New AC", "m", "s", 1, "c"⟩],
           [⟨"d9", 1⟩]⟩]⟩).devices "d9"
      = some { deviceFromRaw ⟨"d9", "p", "New AC", "m", "s", 1, "c"⟩ with state := 1 } :=
  ((discovery_step_convergence
      ⟨[("d1", devOnline), ("gone", devOffline)], ["d1", "gone"],
       [("d1", false), ("gone", false)], [("d1", true), ("gone", true)], true⟩
      ⟨[⟨"f1", [⟨"d1", "p", "Living Room", "m", "s", 1, "c"⟩,
                ⟨"d9", "p", "New AC", "m", "s", 1, "c"⟩],
         [⟨"d9", 1⟩]⟩]⟩ (by decide)).2.1
    ⟨"f1", [⟨"d1", "p", "Living Room", "m", "s", 1, "c"⟩,
            ⟨"d9", "p", "New AC", "m", "s", 1, "c"⟩], [⟨"d9", 1⟩]⟩
    ⟨"d9", "p", "New AC", "m", "s", 1, "c"⟩
    (by decide) (by decide) rfl).trans (by rw [show bulkState [⟨"d9", 1⟩] "d9" = 1 from rfl])

end ClimateHub
